import Mathlib

/-!
Shallow embedding of the py6502emu C64 emulator core.

The Python sources embedded here are:
  * `cpu_6502.py`  — 6510 CPU: dispatch table, addressing modes, handlers,
    interrupt entry, KERNAL LOAD/SAVE traps, rewind snapshot capture/restore;
  * `bus.py`       — bank-switched memory map, peripheral dispatch, dirty set;
  * `cia.py`       — CIA timers, keyboard matrix, interrupt flag/mask registers;
  * `vic2.py`      — VIC-II raster state, register file, pixel/sprite renderer,
    badline detection;
  * `sid.py`       — SID register file and voice state (state capture only);
  * `pyc64/peripherals/drive.py` — 1541 high-level disk drive (sector chains).

Modelling conventions (Python → Lean):
  * Python `int` is `Int`; Python `bool` is `Bool`; Python `float` is `Float`
    (floats are only carried through snapshot save/restore, never computed on);
  * Python lists of numbers become total functions `Int → Int` together with
    the list length; a negative index `i` with `-len ≤ i < 0` reads entry
    `len + i` exactly as in Python (helper `pyIdx`).  An index outside
    `[-len, len)` raises `IndexError` in Python; the total model simply reads
    the function, and every theorem below stays inside the in-range domain;
  * stateful methods become explicit state-passing functions; reads that
    mutate (CIA interrupt-flag clear, VIC collision-latch clear) return a
    value/state pair;
  * fallible paths (Python exceptions, `while True` loops that can diverge on
    a cyclic sector chain) return `Option`, with `none` for crash/divergence;
  * the interactive debugger shell (`debug_prompt`, stdin driven) is out of
    scope per the spec and is modelled as the identity on machine state;
  * the `petscii-c64en-lc`/`-uc` codecs used to turn filename bytes into
    Python strings are modelled as an explicit codec parameter threaded into
    the functions that use them.
-/

set_option maxRecDepth 100000

/-- Python list index semantics for a list of length `len`: a negative index
counts from the end.  (Indices outside `[-len, len)` raise in Python and are
not modelled; no theorem below leaves the in-range domain.) -/
def pyIdx (len i : Int) : Int :=
  if i < 0 then i + len else i

/-- Read entry `i` of a Python list of length `len` modelled as a function. -/
def pyGet {α : Type} (f : Int → α) (len i : Int) : α :=
  f (pyIdx len i)

/-- Write entry `i` of a Python list of length `len` modelled as a function. -/
def pySet {α : Type} (f : Int → α) (len i : Int) (v : α) : Int → α :=
  fun j => if j = pyIdx len i then v else f j

/-- Python truthiness of an `int`: zero is falsy. -/
def pyTruthy (i : Int) : Bool :=
  i != 0

/-- Bit-by-bit combination of two naturals, structurally recursive on a fuel
argument so that the kernel can evaluate it.  With fuel `k` it is exact for
arguments below `2 ^ k`; every integer the emulator manipulates fits far
below `2 ^ 128`, the fuel used throughout. -/
def natBitAux (f : Bool → Bool → Bool) : Nat → Nat → Nat → Nat
  | 0, _, _ => 0
  | fuel + 1, a, b =>
      (if f (a % 2 = 1) (b % 2 = 1) then 1 else 0) + 2 * natBitAux f fuel (a / 2) (b / 2)

/-- Bitwise and on naturals (kernel-evaluable). -/
def natAnd (a b : Nat) : Nat :=
  natBitAux (fun x y => x && y) 128 a b

/-- Bitwise or on naturals (kernel-evaluable). -/
def natOr (a b : Nat) : Nat :=
  natBitAux (fun x y => x || y) 128 a b

/-- Bitwise xor on naturals (kernel-evaluable). -/
def natXor (a b : Nat) : Nat :=
  natBitAux (fun x y => x ≠ y) 128 a b

/-- Bitwise difference `a AND (NOT b)` on naturals (kernel-evaluable). -/
def natLdiff (a b : Nat) : Nat :=
  natBitAux (fun x y => x && !y) 128 a b

/-- Python `&` on integers, two's-complement on negatives: a negative
integer `-(m+1)` has the bit pattern `NOT m`. -/
def pyAnd (a b : Int) : Int :=
  if 0 ≤ a then
    if 0 ≤ b then natAnd a.toNat b.toNat
    else natLdiff a.toNat (-b - 1).toNat
  else
    if 0 ≤ b then natLdiff b.toNat (-a - 1).toNat
    else -(natOr (-a - 1).toNat (-b - 1).toNat) - 1

/-- Python `|` on integers, two's-complement on negatives. -/
def pyOr (a b : Int) : Int :=
  if 0 ≤ a then
    if 0 ≤ b then natOr a.toNat b.toNat
    else -(natLdiff (-b - 1).toNat a.toNat) - 1
  else
    if 0 ≤ b then -(natLdiff (-a - 1).toNat b.toNat) - 1
    else -(natAnd (-a - 1).toNat (-b - 1).toNat) - 1

/-- Python `^` (bitwise xor) on integers, two's-complement on negatives. -/
def pyXor (a b : Int) : Int :=
  if 0 ≤ a then
    if 0 ≤ b then natXor a.toNat b.toNat
    else -(natXor a.toNat (-b - 1).toNat) - 1
  else
    if 0 ≤ b then -(natXor (-a - 1).toNat b.toNat) - 1
    else natXor (-a - 1).toNat (-b - 1).toNat

/-- Python `<< n` (all shift amounts in the embedded sources are literals). -/
def pyShl (a : Int) (n : Nat) : Int :=
  a * 2 ^ n

/-- Python `>> n`, an arithmetic (floor) shift. -/
def pyShr (a : Int) (n : Nat) : Int :=
  Int.fdiv a (2 ^ n)

/-- Python slice `l[start:stop]` with clamping and negative-index handling. -/
def pySlice (l : List Int) (start stop : Int) : List Int :=
  let len : Int := l.length
  let norm : Int → Int := fun i =>
    if i < 0 then max (len + i) 0 else min i len
  let s := (norm start).toNat
  let e := (norm stop).toNat
  (l.take e).drop s

example : pySlice [1, 2, 3, 4, 5] 1 3 = [2, 3] := by decide
example : pyIdx 65536 (-2) = 65534 := by decide
example : pyAnd 0xA0 (-208) = 0x20 := by decide
example : pyShr (-160) 4 = -10 := by decide

/-- Addressing modes of the 6502 decoder (`class Mode` in `cpu_6502.py`). -/
inductive Mode : Type
  | IMMEDIATE
  | ZEROPAGE
  | ZEROPAGEX
  | ZEROPAGEY
  | ABSOLUTE
  | ABSOLUTEX
  | ABSOLUTEY
  | IMPLIED
  | INDIRECT
  | RELATIVE
  | ACCUMULATOR
  | INDIRECTX
  | INDIRECTY
  deriving DecidableEq, Repr

/-- The instruction handlers of `CPU` (`cpu_6502.py`); each constructor names
one of the Python methods the 256-entry dispatch table can point at. -/
inductive Instr : Type
  | BRK | RTI | LDA | LDX | LDY | STA | STX | STY
  | INX | INY | DEX | DEY | TAX | TXA | TAY | TYA
  | CLC | SEC | CLI | SEI | CLV | CLD | SED
  | JMP | CMP | CPX | CPY
  | BPL | BMI | BVC | BVS | BCC | BCS | BNE | BEQ
  | TXS | TSX | PHA | PLA | PHP | PLP
  | JSR | RTS | ADC | SBC
  | AND | ORA | EOR | NOP
  | ASL | LSR | ROL | ROR | BIT | INC | DEC
  | SLO | RLA | SAX | LAX | DCP
  deriving DecidableEq, Repr

/-- One VIC-II hardware sprite (`class Sprite` in `vic2.py`). -/
structure Sprite : Type where
  id : Int
  x : Int
  y : Int
  color : Int
  enabled : Bool
  expand_y : Bool
  expand_x : Bool
  priority : Bool
  is_multicolor : Bool
  pointer : Int

/-- VIC-II chip state (`class VICII` in `vic2.py`).  `registers` models the
47-entry register list, `screen` the 320×200 pygame surface (pixels are RGB
triples), `sprite_scanline_buffer` the 320-entry `(color_idx, sprite_id)`
buffer, `char_rom` the 4 KiB character ROM list. -/
structure VICState : Type where
  registers : Int → Int
  cycle : Int
  raster_line : Int
  screen : Int → Int → Int × Int × Int
  sprites : Int → Sprite
  sprite_scanline_buffer : Int → Int × Int
  sprite_sprite_collision : Int
  sprite_data_collision : Int
  char_rom : Int → Int

/-- CIA chip state (`class CIA` in `cia.py`).  The keyboard/joystick fields
exist only on CIA1 in Python; they are carried on both chips here and CIA2
never touches them. -/
structure CIAState : Type where
  name : String
  registers : Int → Int
  is_cia1 : Bool
  keyboard_matrix : Int → Int → Int
  port_a_output : Int
  port_b_output : Int
  ddra : Int
  ddrb : Int
  joystick_state : Int
  timer_a_latch : Int
  timer_b_latch : Int
  timer_a_counter : Int
  timer_b_counter : Int
  cra : Int
  crb : Int
  icr : Int
  ifr : Int
  timer_a_started : Bool

/-- One SID voice (`class Voice` in `sid.py`).  `rate_counter` starts as the
integer 0 in Python but becomes a float on first update; it is carried as a
`Float` and never computed on here (only snapshot save/restore touches it). -/
structure Voice : Type where
  sample_rate : Int
  clock_rate : Int
  phase_accumulator : Int
  noise_shift_register : Int
  freq : Int
  pulse_width : Int
  control : Int
  attack_decay : Int
  sustain_release : Int
  rate_counter : Float
  envelope_state : String
  envelope_counter : Int

/-- SID chip state (`class SID` in `sid.py`); `voices` models the 3-entry
voice list. -/
structure SIDState : Type where
  registers : Int → Int
  sample_rate : Int
  voices : Int → Voice
  volume : Float
  external_in : Float
  filter_cutoff : Int
  filter_resonance : Float
  filter_route : Int
  filter_mode : Int
  voice3_off : Bool
  low_pass_output : Float
  band_pass_output : Float

/-- 1541 disk drive state (`class DiskDrive1541` in
`pyc64/peripherals/drive.py`): the raw `.d64` image bytes (or `none` when no
disk is attached) and the parsed directory mapping an upper-cased filename to
its first `(track, sector)`. -/
structure Drive : Type where
  disk_image : Option (List Int)
  disk_name : String
  directory : List (String × Int × Int)

/-- Cartridge state (`class Cartridge` in `bus.py`).  `rom_chips` maps a load
address to the chip's byte list, modelled as a function (chip reads outside
the loaded data raise in Python; no theorem exercises cartridge chips). -/
structure Cartridge : Type where
  type_code : Int
  exrom : Bool
  game : Bool
  rom_chips : Int → Option (Int → Int)

/-- The whole machine: the `CPU` register file and pending-interrupt state of
`cpu_6502.py` together with the `Bus` of `bus.py` (RAM, ROMs, processor port,
dirty-address set, cartridge) and the owned peripherals. -/
structure Machine : Type where
  a : Int
  x : Int
  y : Int
  pc : Int
  sp : Int
  irq_pending : Bool
  nmi_pending : Bool
  cycles_remaining : Int
  total_cycles : Int
  breakpoints : List Int
  n : Bool
  v : Bool
  b : Bool
  d : Bool
  i : Bool
  z : Bool
  c : Bool
  ram : Int → Int
  basic_rom : Int → Int
  kernal_rom : Int → Int
  processor_port : Int
  memory_dirty_flags : List Int
  cartridge : Option Cartridge
  vic : VICState
  sid : SIDState
  cia1 : CIAState
  cia2 : CIAState
  drive : Drive

/-- The PETSCII codecs used by the KERNAL traps: `decode` models
`bytes(...).decode("petscii-c64en-lc", errors="ignore")` and `encode` models
`str.encode("petscii-c64en-uc", errors="replace")`.  They are external codec
tables, threaded in as a parameter. -/
structure PetsciiCodec : Type where
  decode : List Int → String
  encode : String → List Int

/-- Python `~x` (bitwise not). -/
def pyNot (a : Int) : Int :=
  -a - 1

/-- `VICII.read` (`vic2.py`): register reads; `$D01E`/`$D01F` are the
collision latches that clear on read, hence the value/state pair. -/
def VICII.read (s : VICState) (address : Int) : Int × VICState :=
  let addr := pyAnd address 0x003F
  if addr = 0x11 then (pyAnd s.raster_line 0xFF, s)
  else if addr = 0x12 then
    (pyOr (pyAnd (pyGet s.registers 47 0x12) 0x7F) (pyAnd (pyShr s.raster_line 1) 0x80), s)
  else if addr = 0x1E then
    (s.sprite_sprite_collision, { s with sprite_sprite_collision := 0 })
  else if addr = 0x1F then
    (s.sprite_data_collision, { s with sprite_data_collision := 0 })
  else if addr = 0x19 then
    let val := pyGet s.registers 47 0x19
    let val := if pyTruthy (pyAnd val (pyGet s.registers 47 0x1A)) then pyOr val 0x80 else val
    (val, s)
  else if addr < 47 then (pyGet s.registers 47 addr, s)
  else (0, s)

/-- `VICII.write` (`vic2.py`): stores the register byte, then mirrors sprite
related registers into the `Sprite` records. -/
def VICII.write (s : VICState) (address data : Int) : VICState :=
  let addr := pyAnd address 0x003F
  let s := if addr < 47 then { s with registers := pySet s.registers 47 addr data } else s
  if 0x00 ≤ addr ∧ addr ≤ 0x0F then
    let sprite_id := pyShr addr 1
    if pyTruthy (pyAnd addr 1) then
      { s with sprites := pySet s.sprites 8 sprite_id { pyGet s.sprites 8 sprite_id with y := data } }
    else
      { s with sprites := pySet s.sprites 8 sprite_id { pyGet s.sprites 8 sprite_id with x := data } }
  else if addr = 0x10 then
    (List.range 8).foldl (fun s (i : Nat) =>
      if pyTruthy (pyAnd (pyShr data i) 1) then
        { s with sprites := pySet s.sprites 8 (i : Int) { pyGet s.sprites 8 (i : Int) with x := pyOr (pyGet s.sprites 8 (i : Int)).x 0x100 } }
      else
        { s with sprites := pySet s.sprites 8 (i : Int) { pyGet s.sprites 8 (i : Int) with x := pyAnd (pyGet s.sprites 8 (i : Int)).x 0xFF } }) s
  else if addr = 0x15 then
    (List.range 8).foldl (fun s (i : Nat) =>
      { s with sprites := pySet s.sprites 8 (i : Int) { pyGet s.sprites 8 (i : Int) with enabled := pyTruthy (pyAnd (pyShr data i) 1) } }) s
  else if addr = 0x1B then
    (List.range 8).foldl (fun s (i : Nat) =>
      { s with sprites := pySet s.sprites 8 (i : Int) { pyGet s.sprites 8 (i : Int) with priority := pyTruthy (pyAnd (pyShr data i) 1) } }) s
  else if addr = 0x17 then
    (List.range 8).foldl (fun s (i : Nat) =>
      { s with sprites := pySet s.sprites 8 (i : Int) { pyGet s.sprites 8 (i : Int) with expand_x := pyTruthy (pyAnd (pyShr data i) 1) } }) s
  else if addr = 0x1D then
    (List.range 8).foldl (fun s (i : Nat) =>
      { s with sprites := pySet s.sprites 8 (i : Int) { pyGet s.sprites 8 (i : Int) with expand_y := pyTruthy (pyAnd (pyShr data i) 1) } }) s
  else if addr = 0x1C then
    (List.range 8).foldl (fun s (i : Nat) =>
      { s with sprites := pySet s.sprites 8 (i : Int) { pyGet s.sprites 8 (i : Int) with is_multicolor := pyTruthy (pyAnd (pyShr data i) 1) } }) s
  else if 0x27 ≤ addr ∧ addr ≤ 0x2E then
    let sprite_id := addr - 0x27
    { s with sprites := pySet s.sprites 8 sprite_id { pyGet s.sprites 8 sprite_id with color := pyAnd data 0x0F } }
  else s

/-- `CIA.read` (`cia.py`): the CIA1 port-A keyboard scan, the timer bytes and
the read-and-clear interrupt-flag register; other offsets fall back to the
stored register byte. -/
def CIA.read (s : CIAState) (address : Int) : Int × CIAState :=
  let offset := pyAnd address 0x0F
  if s.is_cia1 ∧ offset = 0x00 then
    let result := (List.range 8).foldl (fun result (col_idx : Nat) =>
      if ¬ pyTruthy (pyAnd (pyShr s.port_a_output col_idx) 1) then
        let row_state_for_col := (List.range 8).foldl (fun row_state (row_idx : Nat) =>
          if pyGet (pyGet s.keyboard_matrix 8 (row_idx : Int)) 8 (col_idx : Int) = 0 then
            pyAnd row_state (pyNot (pyShl 1 row_idx))
          else row_state) 0xFF
        pyAnd result row_state_for_col
      else result) 0xFF
    let final_result := pyAnd result s.joystick_state
    (pyOr (pyAnd final_result (pyNot s.ddra)) (pyAnd s.port_a_output s.ddra), s)
  else if s.is_cia1 ∧ offset = 0x01 then (s.port_b_output, s)
  else if s.is_cia1 ∧ offset = 0x02 then (s.ddra, s)
  else if s.is_cia1 ∧ offset = 0x03 then (s.ddrb, s)
  else if offset = 0x04 then (pyAnd s.timer_a_counter 0xFF, s)
  else if offset = 0x05 then (pyShr s.timer_a_counter 8, s)
  else if offset = 0x06 then (pyAnd s.timer_b_counter 0xFF, s)
  else if offset = 0x07 then (pyShr s.timer_b_counter 8, s)
  else if offset = 0x0D then (s.ifr, { s with ifr := 0 })
  else (pyGet s.registers 16 offset, s)

/-- `CIA.write` (`cia.py`): port/DDR stores on CIA1, the timer-A latch and
control register, the set/clear protocol of the interrupt mask; the raw
register byte is always stored last. -/
def CIA.write (s : CIAState) (address data : Int) : CIAState :=
  let offset := pyAnd address 0x0F
  let s :=
    if s.is_cia1 ∧ offset = 0x00 then { s with port_a_output := data }
    else if s.is_cia1 ∧ offset = 0x01 then { s with port_b_output := data }
    else if s.is_cia1 ∧ offset = 0x02 then { s with ddra := data }
    else if s.is_cia1 ∧ offset = 0x03 then { s with ddrb := data }
    else s
  let s :=
    if offset = 0x04 then
      { s with timer_a_latch := pyOr (pyAnd s.timer_a_latch 0xFF00) data }
    else if offset = 0x05 then
      let latch := pyOr (pyAnd s.timer_a_latch 0x00FF) (pyShl data 8)
      let s := { s with timer_a_latch := latch }
      if ¬ pyTruthy (pyAnd s.cra 0b00000001) then { s with timer_a_counter := latch } else s
    else if offset = 0x0E then
      { s with cra := data, timer_a_started := pyTruthy (pyAnd data 0b00000001) }
    else if offset = 0x0D then
      if pyTruthy (pyAnd data 0x80) then { s with icr := pyOr s.icr (pyAnd data 0x7F) }
      else { s with icr := pyAnd s.icr (pyNot (pyAnd data 0x7F)) }
    else s
  { s with registers := pySet s.registers 16 offset data }

/-- `CIA.tick` (`cia.py`): one cycle of the timers.  Only timer A is
implemented in the source.  The returned flag records whether the chip called
`cpu.irq()` this cycle (that is the only CPU method either CIA ever calls). -/
def CIA.tick (s : CIAState) : CIAState × Bool :=
  if s.timer_a_started then
    let counter := s.timer_a_counter - 1
    if counter < 0 then
      let s := { s with timer_a_counter := counter, ifr := pyOr s.ifr 0b00000001 }
      let tA :=
        if pyTruthy (pyAnd s.icr 0b00000001) then
          ({ s with ifr := pyOr s.ifr 0x80 }, true)
        else (s, false)
      let s := tA.1
      let raised := tA.2
      if pyTruthy (pyAnd s.cra 0b00001000) then
        ({ s with timer_a_started := false, timer_a_counter := s.timer_a_latch }, raised)
      else
        ({ s with timer_a_counter := s.timer_a_latch }, raised)
    else ({ s with timer_a_counter := counter }, false)
  else (s, false)

/-- `SID.read` (`sid.py`): voice-3 oscillator/envelope taps, else the stored
register byte (SID reads never mutate state). -/
def SID.read (s : SIDState) (address : Int) : Int :=
  let offset := pyAnd address 0x1F
  if offset = 0x1B then pyShr (pyGet s.voices 3 2).phase_accumulator 16
  else if offset = 0x1C then (pyGet s.voices 3 2).envelope_counter
  else pyGet s.registers 32 offset

/-- `SID.update_voice_register` (`sid.py`). -/
def SID.update_voice_register (voice : Voice) (reg data : Int) : Voice :=
  if reg = 0 then { voice with freq := pyOr (pyAnd voice.freq 0xFF00) data }
  else if reg = 1 then { voice with freq := pyOr (pyAnd voice.freq 0x00FF) (pyShl data 8) }
  else if reg = 2 then { voice with pulse_width := pyOr (pyAnd voice.pulse_width 0x0F00) data }
  else if reg = 3 then { voice with pulse_width := pyOr (pyAnd voice.pulse_width 0x00FF) (pyShl (pyAnd data 0x0F) 8) }
  else if reg = 4 then { voice with control := data }
  else if reg = 5 then { voice with attack_decay := data }
  else if reg = 6 then { voice with sustain_release := data }
  else voice

/-- `SID.write` (`sid.py`): stores the register byte and routes it to the
voice or global filter/volume state. -/
def SID.write (s : SIDState) (address data : Int) : SIDState :=
  let offset := pyAnd address 0x1F
  let s := { s with registers := pySet s.registers 32 offset data }
  if 0x00 ≤ offset ∧ offset ≤ 0x06 then
    { s with voices := pySet s.voices 3 0 (SID.update_voice_register (pyGet s.voices 3 0) offset data) }
  else if 0x07 ≤ offset ∧ offset ≤ 0x0D then
    { s with voices := pySet s.voices 3 1 (SID.update_voice_register (pyGet s.voices 3 1) (offset - 0x07) data) }
  else if 0x0E ≤ offset ∧ offset ≤ 0x14 then
    { s with voices := pySet s.voices 3 2 (SID.update_voice_register (pyGet s.voices 3 2) (offset - 0x0E) data) }
  else if offset = 0x15 then
    { s with filter_cutoff := pyOr (pyAnd s.filter_cutoff 0x07F8) (pyAnd data 0x07) }
  else if offset = 0x16 then
    { s with filter_cutoff := pyOr (pyAnd s.filter_cutoff 0x0007) (pyShl data 3) }
  else if offset = 0x17 then
    { s with filter_resonance := Float.ofInt (pyShr data 4) / 15.0,
             filter_route := pyAnd data 0x0F }
  else if offset = 0x18 then
    { s with volume := Float.ofInt (pyAnd data 0x0F) / 15.0,
             filter_mode := pyAnd data 0x70,
             voice3_off := pyTruthy (pyAnd data 0x80) }
  else s

/-- Python `<<` when the shift amount is itself a Python int (a negative
amount raises in Python and is not modelled). -/
def pyShlI (a b : Int) : Int :=
  a * 2 ^ b.toNat

/-- Python `>>` when the shift amount is itself a Python int. -/
def pyShrI (a b : Int) : Int :=
  Int.fdiv a (2 ^ b.toNat)

/-- Write a pixel of the 320×200 surface (`pygame.Surface.set_at`). -/
def pySet2 (f : Int → Int → α) (x y : Int) (v : α) : Int → Int → α :=
  fun xx yy => if xx = x ∧ yy = y then v else f xx yy

/-- `Bus.write` (`bus.py`): the `$0001` processor-port latch, cartridge and
ROM write squelching, the I/O window dispatch, and the default RAM write that
records the address in the rewind dirty set. -/
def Bus.write (m : Machine) (address data : Int) : Machine :=
  if address = 0x0001 then
    { m with processor_port := data, ram := pySet m.ram 65536 0x0001 data }
  else
    let loram := pyAnd (pyShr m.processor_port 0) 1
    let hiram := pyAnd (pyShr m.processor_port 1) 1
    let charen := pyAnd (pyShr m.processor_port 2) 1
    let cartWriteIgnored : Bool :=
      match m.cartridge with
      | some cart =>
          cart.game && !cart.exrom &&
            ((decide (0x8000 ≤ address ∧ address ≤ 0x9FFF) && (cart.rom_chips 0x8000).isSome) ||
             (decide (0xE000 ≤ address ∧ address ≤ 0xFFFF) && (cart.rom_chips 0xE000).isSome))
      | none => false
    if cartWriteIgnored then m
    else if 0xA000 ≤ address ∧ address ≤ 0xBFFF then
      if (match m.cartridge with
          | some cart => !cart.exrom && (cart.rom_chips 0xA000).isSome
          | none => false : Bool) then m
      else if pyTruthy loram then m
      else { m with ram := pySet m.ram 65536 address data,
                    memory_dirty_flags :=
                      if m.memory_dirty_flags.contains address then m.memory_dirty_flags
                      else address :: m.memory_dirty_flags }
    else if 0xD000 ≤ address ∧ address ≤ 0xDFFF then
      if pyTruthy loram ∧ pyTruthy hiram ∧ pyTruthy charen then
        if 0xD000 ≤ address ∧ address ≤ 0xD3FF then
          { m with vic := VICII.write m.vic address data }
        else if 0xD400 ≤ address ∧ address ≤ 0xD7FF then
          { m with sid := SID.write m.sid address data }
        else if 0xDC00 ≤ address ∧ address ≤ 0xDCFF then
          { m with cia1 := CIA.write m.cia1 address data }
        else if 0xDD00 ≤ address ∧ address ≤ 0xDDFF then
          { m with cia2 := CIA.write m.cia2 address data }
        else if 0xD800 ≤ address ∧ address ≤ 0xDBFF then
          { m with ram := pySet m.ram 65536 address data }
        else m
      else { m with ram := pySet m.ram 65536 address data,
                    memory_dirty_flags :=
                      if m.memory_dirty_flags.contains address then m.memory_dirty_flags
                      else address :: m.memory_dirty_flags }
    else if 0xE000 ≤ address ∧ address ≤ 0xFFFF then
      if pyTruthy hiram then m
      else { m with ram := pySet m.ram 65536 address data,
                    memory_dirty_flags :=
                      if m.memory_dirty_flags.contains address then m.memory_dirty_flags
                      else address :: m.memory_dirty_flags }
    else { m with ram := pySet m.ram 65536 address data,
                  memory_dirty_flags :=
                    if m.memory_dirty_flags.contains address then m.memory_dirty_flags
                    else address :: m.memory_dirty_flags }

/-- `Bus.read` (`bus.py`): cartridge overlays, BASIC/KERNAL ROM banking, the
I/O window (VIC/SID/CIA reads can mutate chip state, hence the pair) and the
default RAM read. -/
def Bus.read (m : Machine) (address : Int) : Int × Machine :=
  let loram := pyAnd (pyShr m.processor_port 0) 1
  let hiram := pyAnd (pyShr m.processor_port 1) 1
  let charen := pyAnd (pyShr m.processor_port 2) 1
  let cartValue : Option Int :=
    match m.cartridge with
    | some cart =>
        if cart.game ∧ ¬ cart.exrom then
          if 0x8000 ≤ address ∧ address ≤ 0x9FFF then
            (cart.rom_chips 0x8000).map (fun chip => chip (address - 0x8000))
          else if 0xE000 ≤ address ∧ address ≤ 0xFFFF then
            (cart.rom_chips 0xE000).map (fun chip => chip (address - 0xE000))
          else none
        else if cart.game ∧ cart.exrom then
          if 0x8000 ≤ address ∧ address ≤ 0x9FFF then
            (cart.rom_chips 0x8000).map (fun chip => chip (address - 0x8000))
          else none
        else none
    | none => none
  match cartValue with
  | some v => (v, m)
  | none =>
    if 0xA000 ≤ address ∧ address ≤ 0xBFFF then
      match m.cartridge with
      | some cart =>
          if ¬ cart.exrom then
            match cart.rom_chips 0xA000 with
            | some chip => (chip (address - 0xA000), m)
            | none =>
                if pyTruthy loram then (pyGet m.basic_rom 0x2000 (address - 0xA000), m)
                else (pyGet m.ram 65536 address, m)
          else if pyTruthy loram then (pyGet m.basic_rom 0x2000 (address - 0xA000), m)
          else (pyGet m.ram 65536 address, m)
      | none =>
          if pyTruthy loram then (pyGet m.basic_rom 0x2000 (address - 0xA000), m)
          else (pyGet m.ram 65536 address, m)
    else if 0xD000 ≤ address ∧ address ≤ 0xDFFF then
      if pyTruthy loram ∧ pyTruthy hiram ∧ pyTruthy charen then
        if 0xD000 ≤ address ∧ address ≤ 0xD3FF then
          let t1 := VICII.read m.vic address
          let v := t1.1
          let vic := t1.2
          (v, { m with vic := vic })
        else if 0xD400 ≤ address ∧ address ≤ 0xD7FF then (SID.read m.sid address, m)
        else if 0xDC00 ≤ address ∧ address ≤ 0xDCFF then
          let t2 := CIA.read m.cia1 address
          let v := t2.1
          let cia := t2.2
          (v, { m with cia1 := cia })
        else if 0xDD00 ≤ address ∧ address ≤ 0xDDFF then
          let t3 := CIA.read m.cia2 address
          let v := t3.1
          let cia := t3.2
          (v, { m with cia2 := cia })
        else if 0xD800 ≤ address ∧ address ≤ 0xDBFF then (pyGet m.ram 65536 address, m)
        else (pyGet m.ram 65536 address, m)
      else (pyGet m.ram 65536 address, m)
    else if 0xE000 ≤ address ∧ address ≤ 0xFFFF then
      if pyTruthy hiram then (pyGet m.kernal_rom 0x2000 (address - 0xE000), m)
      else (pyGet m.ram 65536 address, m)
    else (pyGet m.ram 65536 address, m)

/-- The fixed 16-entry Pepto palette of `vic2.py` (indexing past entry 15
raises in Python; the model returns the last entry, never exercised). -/
def VICII.palette (i : Int) : Int × Int × Int :=
  let j := pyIdx 16 i
  if j = 0 then (0, 0, 0) else if j = 1 then (255, 255, 255)
  else if j = 2 then (136, 0, 0) else if j = 3 then (170, 255, 238)
  else if j = 4 then (204, 68, 204) else if j = 5 then (0, 204, 85)
  else if j = 6 then (0, 0, 170) else if j = 7 then (238, 238, 119)
  else if j = 8 then (221, 136, 85) else if j = 9 then (102, 68, 0)
  else if j = 10 then (255, 119, 119) else if j = 11 then (51, 51, 51)
  else if j = 12 then (119, 119, 119) else if j = 13 then (170, 255, 102)
  else if j = 14 then (0, 136, 255) else (187, 187, 187)

/-- `VICII.trigger_interrupt` (`vic2.py`): set the flag bit in `$D019` and,
if the mask in `$D01A` enables it, request a CPU IRQ (the `if self.cpu:`
guard always holds: `main.py` hands the CPU to the `Bus` constructor). -/
def VICII.trigger_interrupt (m : Machine) (flag : Int) : Machine :=
  let vic := { m.vic with
    registers := pySet m.vic.registers 47 0x19 (pyOr (pyGet m.vic.registers 47 0x19) flag) }
  let m := { m with vic := vic }
  if pyTruthy (pyAnd (pyGet vic.registers 47 0x1A) flag) then
    { m with irq_pending := true }
  else m

/-- The background-pixel lookup inside `VICII.render_pixel` (`vic2.py`):
the bitmap-mode branch and the character-mode branch, returning the pixel
color index, whether the pixel is foreground, and the machine after the bus
reads. -/
def VICII.render_pixel_background (vic_mem_pointers logical_x_pixel logical_y_pixel bg_color_idx : Int)
    (m : Machine) : Int × Bool × Machine :=
  if pyTruthy (pyAnd (pyGet m.vic.registers 47 0x11) 0x20) then
    -- Bitmap mode (standard resolution)
    let bitmap_base := pyAnd (pyShr vic_mem_pointers 3) 0x01 * 0x2000
    let screen_ram_base := pyAnd (pyShr vic_mem_pointers 4) 0x0F * 0x400
    let color_ram_base := (0xD800 : Int)
    let char_row := Int.fdiv logical_y_pixel 8
    let char_col := Int.fdiv logical_x_pixel 8
    let y_in_char := logical_y_pixel % 8
    let x_in_char := logical_x_pixel % 8
    let bitmap_byte_addr := bitmap_base + char_row * 40 * 8 + char_col * 8 + y_in_char
    let t4 := Bus.read m bitmap_byte_addr
    let bitmap_byte := t4.1
    let m := t4.2
    let t5 := Bus.read m (screen_ram_base + char_row * 40 + char_col)
    let screen_ram_byte := t5.1
    let m := t5.2
    let t6 := Bus.read m (color_ram_base + char_row * 40 + char_col)
    let _color_ram_byte := t6.1
    let m := t6.2
    let fg_color_idx := pyAnd (pyShr screen_ram_byte 4) 0x0F
    let bg_color_idx_cell := pyAnd screen_ram_byte 0x0F
    let pixel_bit_set := pyAnd (pyShrI bitmap_byte (7 - x_in_char)) 1
    if pyTruthy pixel_bit_set then (fg_color_idx, true, m)
    else (bg_color_idx_cell, false, m)
  else
    -- Character mode
    let char_row := Int.fdiv logical_y_pixel 8
    let char_col := Int.fdiv logical_x_pixel 8
    let screen_ram_base := pyAnd (pyShr vic_mem_pointers 4) 0x0F * 0x400
    let screen_code_addr := screen_ram_base + char_row * 40 + char_col
    let t7 := Bus.read m screen_code_addr
    let screen_code := t7.1
    let m := t7.2
    let _char_rom_base := pyAnd (pyShr vic_mem_pointers 1) 0b111 * 0x800
    let char_bitmap_addr := screen_code * 8 + logical_y_pixel % 8
    let char_bitmap_byte := pyGet m.vic.char_rom 0x1000 char_bitmap_addr
    let color_ram_base := (0xD800 : Int)
    let t8 := Bus.read m (color_ram_base + char_row * 40 + char_col)
    let color_byte := t8.1
    let m := t8.2
    let color_idx := pyAnd color_byte 0x0F
    let char_pixel_is_set := pyAnd (pyShrI char_bitmap_byte (7 - logical_x_pixel % 8)) 1
    if pyTruthy char_pixel_is_set then (color_idx, true, m)
    else (bg_color_idx, false, m)

/-- The sprite-overlay step of `VICII.render_pixel` (`vic2.py`): consult the
sprite scanline buffer at this pixel, record a sprite-data collision (with
its interrupt) when the background pixel is foreground, and resolve priority
between sprite and background. -/
def VICII.render_pixel_sprite_overlay (x_screen final_background_color_idx : Int)
    (background_pixel_is_foreground : Bool) (m : Machine) : Int × Machine :=
  let sprite_info := pyGet m.vic.sprite_scanline_buffer 320 x_screen
  let sprite_color_idx := sprite_info.1
  let sprite_id := sprite_info.2
  if sprite_color_idx ≠ 0 ∧ sprite_id ≠ -1 then
    let m :=
      if background_pixel_is_foreground then
        let m := { m with vic := { m.vic with
          sprite_data_collision := pyOr m.vic.sprite_data_collision (pyShlI 1 sprite_id) } }
        VICII.trigger_interrupt m 0b00000010
      else m
    let sprite_obj := pyGet m.vic.sprites 8 sprite_id
    if sprite_obj.priority then
      if ¬ background_pixel_is_foreground then (sprite_color_idx, m)
      else (final_background_color_idx, m)
    else (sprite_color_idx, m)
  else (final_background_color_idx, m)

/-- `VICII.render_pixel` (`vic2.py`): one pixel of the visible box — border
early-out, text/bitmap background lookup through the bus, the sprite buffer
overlay with sprite-data collision detection and priority, and the surface
write. -/
def VICII.render_pixel (m : Machine) : Machine :=
  let y_screen := m.vic.raster_line - 50
  let x_screen := m.vic.cycle - 24
  if ¬ (0 ≤ x_screen ∧ x_screen < 320 ∧ 0 ≤ y_screen ∧ y_screen < 200) then m
  else
    let h_scroll := pyAnd (pyGet m.vic.registers 47 0x16) 0x07
    let v_scroll := pyAnd (pyGet m.vic.registers 47 0x11) 0x07
    let logical_x_pixel := (x_screen + h_scroll) % (40 * 8)
    let logical_y_pixel := (y_screen + v_scroll) % (25 * 8)
    let bg_color_idx := pyAnd (pyGet m.vic.registers 47 0x21) 0x0F
    let vic_mem_pointers := pyGet m.vic.registers 47 0x18
    let tBG := VICII.render_pixel_background vic_mem_pointers logical_x_pixel logical_y_pixel
      bg_color_idx m
    let final_background_color_idx := tBG.1
    let background_pixel_is_foreground := tBG.2.1
    let m := tBG.2.2
    let tFP := VICII.render_pixel_sprite_overlay x_screen final_background_color_idx
      background_pixel_is_foreground m
    let final_pixel_color_idx := tFP.1
    let m := tFP.2
    { m with vic := { m.vic with
        screen := pySet2 m.vic.screen x_screen y_screen (VICII.palette final_pixel_color_idx) } }

/-- One buffer write of `VICII.render_sprites_on_scanline` (`vic2.py`): the
body of the innermost `for p in range(pixel_width)` loop — bounds check,
sprite-sprite collision against an already-occupied cell (with its
interrupt), and the overwriting store. -/
def VICII.sprite_put_pixel (color_idx sprite_id : Int) (m : Machine) (pixel_x : Int) : Machine :=
  if 0 ≤ pixel_x ∧ pixel_x < 320 then
    let existing_sprite_id := (pyGet m.vic.sprite_scanline_buffer 320 pixel_x).2
    let m :=
      if existing_sprite_id ≠ -1 then
        let m := { m with vic := { m.vic with
          sprite_sprite_collision := pyOr m.vic.sprite_sprite_collision
            (pyOr (pyShlI 1 sprite_id) (pyShlI 1 existing_sprite_id)) } }
        VICII.trigger_interrupt m 0b00000100
      else m
    { m with vic := { m.vic with
      sprite_scanline_buffer :=
        pySet m.vic.sprite_scanline_buffer 320 pixel_x (color_idx, sprite_id) } }
  else m

/-- The body of the multicolor `for i in range(12)` loop of
`VICII.render_sprites_on_scanline` (`vic2.py`). -/
def VICII.sprite_render_mc_pixel (sprite : Sprite) (rowByte : Nat → Int) (mc1 mc2 : Int)
    (m : Machine) (i : Nat) : Machine :=
  let byte_idx := i / 4
  let bit_shift := 6 - (i % 4) * 2
  let color_bits := pyAnd (pyShr (rowByte byte_idx) bit_shift) 0b11
  if color_bits = 0b00 then m
  else
    let pixel_color_idx :=
      if color_bits = 0b01 then mc1
      else if color_bits = 0b10 then sprite.color
      else mc2
    let pixel_width : Int := if sprite.expand_x then 4 else 2
    let pixel_x_start := sprite.x + (i : Int) * pixel_width - 24
    (List.range pixel_width.toNat).foldl (fun m (p : Nat) =>
      VICII.sprite_put_pixel pixel_color_idx sprite.id m (pixel_x_start + (p : Int))) m

/-- The body of the single-color `for i in range(24)` loop of
`VICII.render_sprites_on_scanline` (`vic2.py`). -/
def VICII.sprite_render_hires_pixel (sprite : Sprite) (rowByte : Nat → Int)
    (m : Machine) (i : Nat) : Machine :=
  let pixel_is_set := pyAnd (pyShr (rowByte (i / 8)) (7 - i % 8)) 1
  if pyTruthy pixel_is_set then
    let pixel_width : Int := if sprite.expand_x then 2 else 1
    let pixel_x_start := sprite.x + (i : Int) * pixel_width - 24
    (List.range pixel_width.toNat).foldl (fun m (p : Nat) =>
      VICII.sprite_put_pixel sprite.color sprite.id m (pixel_x_start + (p : Int))) m
  else m

/-- The body of the `for sprite in self.sprites` loop of
`VICII.render_sprites_on_scanline` (`vic2.py`): skip checks, the pointer
fetch written back into the sprite record, the three row-byte reads, and the
multicolor/single-color dispatch. -/
def VICII.render_one_sprite (sprite_pointer_base : Int) (m : Machine) (idx : Nat) : Machine :=
  let sprite := pyGet m.vic.sprites 8 (idx : Int)
  if ¬ sprite.enabled then m
  else
    let sprite_height : Int := if sprite.expand_y then 42 else 21
    if ¬ (sprite.y ≤ m.vic.raster_line ∧ m.vic.raster_line < sprite.y + sprite_height) then m
    else
      let sprite_row := m.vic.raster_line - sprite.y
      let sprite_row := if sprite.expand_y then Int.fdiv sprite_row 2 else sprite_row
      let t9 := Bus.read m (sprite_pointer_base + sprite.id)
      let ptr := t9.1
      let m := t9.2
      let m := { m with vic := { m.vic with
        sprites := pySet m.vic.sprites 8 (idx : Int)
          { pyGet m.vic.sprites 8 (idx : Int) with pointer := ptr } } }
      let sprite := pyGet m.vic.sprites 8 (idx : Int)
      let sprite_data_addr := sprite.pointer * 64
      let row_data_addr := sprite_data_addr + sprite_row * 3
      let t10 := Bus.read m row_data_addr
      let byte1 := t10.1
      let m := t10.2
      let t11 := Bus.read m (row_data_addr + 1)
      let byte2 := t11.1
      let m := t11.2
      let t12 := Bus.read m (row_data_addr + 2)
      let byte3 := t12.1
      let m := t12.2
      let rowByte : Nat → Int := fun k => if k = 0 then byte1 else if k = 1 then byte2 else byte3
      if sprite.is_multicolor then
        let mc1 := pyAnd (pyGet m.vic.registers 47 0x25) 0x0F
        let mc2 := pyAnd (pyGet m.vic.registers 47 0x26) 0x0F
        (List.range 12).foldl (VICII.sprite_render_mc_pixel sprite rowByte mc1 mc2) m
      else
        (List.range 24).foldl (VICII.sprite_render_hires_pixel sprite rowByte) m

/-- `VICII.render_sprites_on_scanline` (`vic2.py`): rebuild the 320-entry
per-scanline sprite buffer, fetching each visible sprite's pointer and row
bytes through the bus, detecting sprite-sprite collisions when a buffer cell
is already occupied, and overwriting so that higher-numbered sprites win the
buffer (lower-numbered ones were written earlier). -/
def VICII.render_sprites_on_scanline (m : Machine) : Machine :=
  let m := { m with vic := { m.vic with
    sprite_scanline_buffer := fun _ => ((0 : Int), (-1 : Int)) } }
  if ¬ (50 ≤ m.vic.raster_line ∧ m.vic.raster_line < 50 + 200) then m
  else
    let screen_ram_base := pyAnd (pyShr (pyGet m.vic.registers 47 0x18) 4) 0x0F * 0x400
    let sprite_pointer_base := screen_ram_base + 0x03F8
    (List.range 8).foldl (VICII.render_one_sprite sprite_pointer_base) m

/-- `VICII.tick` (`vic2.py`): render the current pixel, advance the beam,
and at end of scanline rebuild the sprite buffer, check the raster-compare
interrupt and wrap the raster counter. -/
def VICII.tick (m : Machine) : Machine :=
  let m := VICII.render_pixel m
  let m := { m with vic := { m.vic with cycle := m.vic.cycle + 1 } }
  if m.vic.cycle ≥ 63 then
    let m := { m with vic := { m.vic with cycle := 0, raster_line := m.vic.raster_line + 1 } }
    let m := VICII.render_sprites_on_scanline m
    let m :=
      if m.vic.raster_line =
          pyOr (pyGet m.vic.registers 47 0x12) (pyShl (pyAnd (pyGet m.vic.registers 47 0x11) 0x80) 1) then
        VICII.trigger_interrupt m 0b00000001
      else m
    if m.vic.raster_line ≥ 312 then
      { m with vic := { m.vic with raster_line := 0 } }
    else m
  else m

/-- `VICII.is_badline` (`vic2.py`). -/
def VICII.is_badline (s : VICState) : Bool :=
  let display_enabled := pyAnd (pyGet s.registers 47 0x11) 0x10
  let is_visible_scanline : Bool := decide (50 ≤ s.raster_line ∧ s.raster_line < 250)
  if ¬ pyTruthy display_enabled ∨ ¬ is_visible_scanline then false
  else
    let v_scroll := pyAnd (pyGet s.registers 47 0x11) 0x07
    if pyAnd s.raster_line 0x07 = v_scroll then true
    else
      (List.range 8).any (fun (idx : Nat) =>
        let sprite := pyGet s.sprites 8 (idx : Int)
        sprite.enabled && sprite.y == s.raster_line)

/-- `VICII.get_cycles_stolen` (`vic2.py`): a badline steals 40 cycles. -/
def VICII.get_cycles_stolen : Int := 40

/-- Python list read `l[i]` returning `none` where Python raises
`IndexError`. -/
def pyListGet (l : List Int) (i : Int) : Option Int :=
  let len : Int := l.length
  if 0 ≤ i ∧ i < len then l.get? i.toNat
  else if -len ≤ i ∧ i < 0 then l.get? (i + len).toNat
  else none

/-- Python slice assignment `l[start:stop] = repl`. -/
def pySpliceSet (l : List Int) (start stop : Int) (repl : List Int) : List Int :=
  let len : Int := l.length
  let norm : Int → Int := fun i =>
    if i < 0 then max (len + i) 0 else min i len
  let s := norm start
  let e := max (norm stop) s
  (l.take s.toNat) ++ repl ++ (l.drop e.toNat)

/-- Python `str.upper()` on the drive's ASCII filenames: `String.toUpper`
written through the character list so the kernel can evaluate it. -/
def pyUpper (s : String) : String :=
  ⟨s.data.map Char.toUpper⟩

/-- `DiskDrive1541._get_sector_data` (`pyc64/peripherals/drive.py`): linear
offset from the fixed track→sectors-per-track table, then a 256-byte slice
of the image.  Returns `none` when no (or an empty) image is attached. -/
def DiskDrive1541.get_sector_data (d : Drive) (track sector : Int) : Option (List Int) :=
  match d.disk_image with
  | none => none
  | some img =>
    if img.isEmpty then none
    else
      let offset :=
        if 1 ≤ track ∧ track ≤ 17 then (track - 1) * 21
        else if 18 ≤ track ∧ track ≤ 24 then 17 * 21 + (track - 18) * 19
        else if 25 ≤ track ∧ track ≤ 30 then 17 * 21 + 7 * 19 + (track - 25) * 18
        else 17 * 21 + 7 * 19 + 6 * 18 + (track - 31) * 17
      let offset := (offset + sector) * 256
      some (pySlice img offset (offset + 256))

/-- The sector-chain walk of `DiskDrive1541.load_file`.  The Python loop is
`while True`; `fuel` bounds it, with `none` for the diverging (cyclic-chain)
or crashing (one-byte sector slice) runs that never produce a value. -/
def DiskDrive1541.load_file_loop (d : Drive) : Nat → Int → Int → List Int → Option (List Int)
  | 0, _, _, _ => none
  | fuel + 1, track, sector, file_data =>
    match DiskDrive1541.get_sector_data d track sector with
    | none => some file_data
    | some sector_data =>
      match sector_data with
      | [] => some file_data
      | [_] => none
      | b0 :: b1 :: _ =>
        let next_track := b0
        let next_sector := b1
        let bytes_in_sector := if next_track ≠ 0 then next_sector else 256
        let file_data := file_data ++ pySlice sector_data 2 bytes_in_sector
        if next_track = 0 then some file_data
        else DiskDrive1541.load_file_loop d fuel next_track next_sector file_data

/-- Directory lookup `self.directory[filename]`. -/
def Drive.dirLookup (d : Drive) (filename : String) : Option (Int × Int) :=
  (d.directory.find? (fun e => e.1 = filename)).map (fun e => (e.2.1, e.2.2))

/-- `DiskDrive1541.load_file` (`pyc64/peripherals/drive.py`).  The outer
`Option` is `none` for a crashing/diverging Python run; the inner value is
the Python return (`none` models Python's `None` for file-not-found). -/
def DiskDrive1541.load_file (d : Drive) (filename : String) : Option (Option (List Int)) :=
  let filename := pyUpper filename
  match Drive.dirLookup d filename with
  | none => some none
  | some (track, sector) =>
    match DiskDrive1541.load_file_loop d 1000 track sector [] with
    | none => none
    | some l => some (some l)

/-- `DiskDrive1541._write_sector_data` (`pyc64/peripherals/drive.py`):
splice 256 bytes into the image; silently drop writes of the wrong size. -/
def DiskDrive1541.write_sector_data (d : Drive) (track sector : Int) (data : List Int) : Drive :=
  match d.disk_image with
  | none => d
  | some img =>
    if img.isEmpty ∨ data.length ≠ 256 then d
    else
      let offset :=
        if 1 ≤ track ∧ track ≤ 17 then (track - 1) * 21
        else if 18 ≤ track ∧ track ≤ 24 then 17 * 21 + (track - 18) * 19
        else if 25 ≤ track ∧ track ≤ 30 then 17 * 21 + 7 * 19 + (track - 25) * 18
        else 17 * 21 + 7 * 19 + 6 * 18 + (track - 31) * 17
      let offset := (offset + sector) * 256
      { d with disk_image := some (pySpliceSet img offset (offset + 256) data) }

/-- The `for track in range(start_track, 36)` scan of
`DiskDrive1541._find_free_sector`, structurally recursive on the number of
tracks left; with `left` tracks remaining the current track is `36 - left`.
The outer `none` marks a crashing Python run (BAM slice too short for the
indexing); `some none` is the fall-through "no free sector" outcome. -/
def DiskDrive1541.find_free_sector_loop (bam_sector : List Int) : Nat → Option (Option (Int × Int))
  | 0 => some none
  | left + 1 =>
    let track : Int := 36 - ((left : Int) + 1)
    match pyListGet bam_sector (track * 4) with
    | none => none
    | some free_sectors =>
      if free_sectors > 0 then
        let bitmap := pySlice bam_sector (track * 4 + 1) (track * 4 + 4)
        let found := (List.range 21).findSome? (fun (sector : Nat) =>
          let byte_idx : Int := sector / 8
          let bit_idx : Nat := sector % 8
          match pyListGet bitmap byte_idx with
          | none => some (none : Option (Int × Int))
          | some b =>
            if pyTruthy (pyAnd (pyShr b bit_idx) 1) then some (some (track, (sector : Int)))
            else none)
        match found with
        | some (some ts) => some (some ts)
        | some none => none
        | none => DiskDrive1541.find_free_sector_loop bam_sector left
      else DiskDrive1541.find_free_sector_loop bam_sector left

/-- `DiskDrive1541._find_free_sector` (`pyc64/peripherals/drive.py`): scan
the BAM at track 18 sector 0 over tracks 1..35.  Outer `none` marks a
crashing run; the inner value is Python's return, with `none` standing for
the `(None, None)` disk-full result. -/
def DiskDrive1541.find_free_sector (d : Drive) : Option (Option (Int × Int)) :=
  match DiskDrive1541.get_sector_data d 18 0 with
  | none => some none
  | some bam_sector =>
    if bam_sector.isEmpty then some none
    else DiskDrive1541.find_free_sector_loop bam_sector 35

/-- The `while True` directory walk of `DiskDrive1541.save_file` looking for
a free 32-byte directory entry.  Outer `none` marks a crashing or diverging
Python run; `some none` is the "directory full" `return False`; the found
case carries the sector position, its data and the entry offset. -/
def DiskDrive1541.save_file_dir_loop (d : Drive) :
    Nat → Int → Int → Option (Option (Int × Int × List Int × Int))
  | 0, _, _ => none
  | fuel + 1, dir_track, dir_sector =>
    match DiskDrive1541.get_sector_data d dir_track dir_sector with
    | none => none
    | some dir_sector_data =>
      let found : Option (Option Int) := (List.range 8).findSome? (fun (k : Nat) =>
        let i : Int := (k : Int) * 32
        match pyListGet dir_sector_data (i + 2) with
        | none => some none
        | some v => if v = 0 then some (some i) else none)
      match found with
      | some none => none
      | some (some i) => some (some (dir_track, dir_sector, dir_sector_data, i))
      | none =>
        match pyListGet dir_sector_data 0, pyListGet dir_sector_data 1 with
        | some t, some s =>
            if t = 0 then some none
            else DiskDrive1541.save_file_dir_loop d fuel t s
        | _, _ => none

/-- `DiskDrive1541.save_file` (`pyc64/peripherals/drive.py`): find a free
directory entry and a free sector, write a minimal PRG entry, then write the
data in a single block.  The `bytearray` byte-range validation (values must
be 0..255) is not modelled; no claim exercises it.  The returned flag is the
Python return value. -/
def DiskDrive1541.save_file (penc : String → List Int) (d : Drive) (filename : String)
    (data : List Int) : Option (Drive × Bool) :=
  let attached : Bool := match d.disk_image with | none => false | some l => !l.isEmpty
  if ¬ attached then some (d, false)
  else
    match DiskDrive1541.save_file_dir_loop d 1000 18 1 with
    | none => none
    | some none => some (d, false)
    | some (some (dir_track, dir_sector, dir_sector_data, dir_entry_offset)) =>
      match DiskDrive1541.find_free_sector d with
      | none => none
      | some none => some (d, false)
      | some (some (file_track, file_sector)) =>
        let new_entry : List Int := List.replicate 32 0
        let new_entry := pySpliceSet new_entry 2 3 [0x82]
        let new_entry := pySpliceSet new_entry 3 4 [file_track]
        let new_entry := pySpliceSet new_entry 4 5 [file_sector]
        let filename_petscii := penc (pyUpper filename)
        let flen : Int := filename_petscii.length
        let new_entry := pySpliceSet new_entry 5 (5 + flen) filename_petscii
        let new_entry := (List.range 21).foldl (fun ne (i : Nat) =>
          if 5 + flen ≤ (i : Int) then pySpliceSet ne (i : Int) ((i : Int) + 1) [0xA0] else ne) new_entry
        let dir_sector_data :=
          pySpliceSet dir_sector_data dir_entry_offset (dir_entry_offset + 32) new_entry
        let d := DiskDrive1541.write_sector_data d dir_track dir_sector dir_sector_data
        let sector_data : List Int := List.replicate 256 0
        let sector_data := pySpliceSet sector_data 0 1 [0]
        let sector_data := pySpliceSet sector_data 1 2 [(data.length : Int) + 2]
        let sector_data := pySpliceSet sector_data 2 (2 + (data.length : Int)) data
        let d := DiskDrive1541.write_sector_data d file_track file_sector sector_data
        some (d, true)

/-- Is a disk attached, in the sense of the KERNAL-trap guard
`if not self.bus.drive or not self.bus.drive.disk_image` (the drive object
itself always exists)? -/
def Drive.attached (d : Drive) : Bool :=
  match d.disk_image with
  | none => false
  | some l => !l.isEmpty

/-- `CPU.wrap` (`cpu_6502.py`): fold an out-of-range 8-bit value back once. -/
def CPU.wrap (value : Int) : Int :=
  if value > 255 then value % 256
  else if value < 0 then value + 256
  else value

/-- `CPU.set_nz` (`cpu_6502.py`). -/
def CPU.set_nz (m : Machine) (value : Int) : Machine :=
  { m with z := decide (value = 0), n := pyTruthy (pyAnd value 0x80) }

/-- `CPU.get_location_by_mode` (`cpu_6502.py`).  For `IMPLIED`/`ACCUMULATOR`
no branch assigns `loc` and Python would raise `UnboundLocalError`; no
handler in the dispatch table calls it with those modes, and the model
returns 0 there. -/
def CPU.get_location_by_mode (m : Machine) (mode : Mode) : Int × Machine :=
  match mode with
  | .IMMEDIATE => (m.pc + 1, m)
  | .ABSOLUTE =>
    let t13 := Bus.read m (m.pc + 1)
    let lsb := t13.1
    let m := t13.2
    let t14 := Bus.read m (m.pc + 2)
    let msb := t14.1
    let m := t14.2
    (msb * 256 + lsb, m)
  | .ABSOLUTEX =>
    let t15 := Bus.read m (m.pc + 1)
    let lsb := t15.1
    let m := t15.2
    let t16 := Bus.read m (m.pc + 2)
    let msb := t16.1
    let m := t16.2
    (msb * 256 + lsb + m.x, m)
  | .ABSOLUTEY =>
    let t17 := Bus.read m (m.pc + 1)
    let lsb := t17.1
    let m := t17.2
    let t18 := Bus.read m (m.pc + 2)
    let msb := t18.1
    let m := t18.2
    (msb * 256 + lsb + m.y, m)
  | .ZEROPAGE =>
    let t19 := Bus.read m (m.pc + 1)
    let lsb := t19.1
    let m := t19.2
    (lsb, m)
  | .ZEROPAGEX =>
    let t20 := Bus.read m (m.pc + 1)
    let lsb := t20.1
    let m := t20.2
    (lsb + m.x, m)
  | .ZEROPAGEY =>
    let t21 := Bus.read m (m.pc + 1)
    let lsb := t21.1
    let m := t21.2
    (lsb + m.y, m)
  | .INDIRECT =>
    let t22 := Bus.read m (m.pc + 1)
    let lsb := t22.1
    let m := t22.2
    let t23 := Bus.read m (m.pc + 2)
    let msb := t23.1
    let m := t23.2
    let loc := msb * 256 + lsb
    let t24 := Bus.read m loc
    let lsb := t24.1
    let m := t24.2
    let t25 := Bus.read m (loc + 1)
    let msb := t25.1
    let m := t25.2
    (msb * 256 + lsb, m)
  | .RELATIVE => (m.pc + 1, m)
  | .INDIRECTX =>
    let t26 := Bus.read m (m.pc + 1)
    let addr := t26.1
    let m := t26.2
    let addr := pyAnd (addr + m.x) 0xFF
    let t27 := Bus.read m addr
    let lsb := t27.1
    let m := t27.2
    let t28 := Bus.read m (pyAnd (addr + 1) 0xFF)
    let msb := t28.1
    let m := t28.2
    (pyOr (pyShl msb 8) lsb, m)
  | .INDIRECTY =>
    let t29 := Bus.read m (m.pc + 1)
    let addr := t29.1
    let m := t29.2
    let t30 := Bus.read m addr
    let lsb := t30.1
    let m := t30.2
    let t31 := Bus.read m (pyAnd (addr + 1) 0xFF)
    let msb := t31.1
    let m := t31.2
    (pyOr (pyShl msb 8) lsb + m.y, m)
  | .IMPLIED => (0, m)
  | .ACCUMULATOR => (0, m)

/-- `CPU.page_boundary_crossed` (`cpu_6502.py`). -/
def CPU.page_boundary_crossed (m : Machine) (mode : Mode) : Bool × Machine :=
  match mode with
  | .ABSOLUTEX =>
    let t32 := Bus.read m (m.pc + 1)
    let lsb := t32.1
    let m := t32.2
    let t33 := Bus.read m (m.pc + 2)
    let msb := t33.1
    let m := t33.2
    let address := pyOr (pyShl msb 8) lsb
    (decide (pyAnd address 0xFF00 ≠ pyAnd (address + m.x) 0xFF00), m)
  | .ABSOLUTEY =>
    let t34 := Bus.read m (m.pc + 1)
    let lsb := t34.1
    let m := t34.2
    let t35 := Bus.read m (m.pc + 2)
    let msb := t35.1
    let m := t35.2
    let address := pyOr (pyShl msb 8) lsb
    (decide (pyAnd address 0xFF00 ≠ pyAnd (address + m.y) 0xFF00), m)
  | .INDIRECTY =>
    let t36 := Bus.read m (m.pc + 1)
    let addr := t36.1
    let m := t36.2
    let t37 := Bus.read m addr
    let lsb := t37.1
    let m := t37.2
    let t38 := Bus.read m (pyAnd (addr + 1) 0xFF)
    let msb := t38.1
    let m := t38.2
    let base_loc := pyOr (pyShl msb 8) lsb
    (decide (pyAnd base_loc 0xFF00 ≠ pyAnd (base_loc + m.y) 0xFF00), m)
  | _ => (false, m)

/-- `CPU.PHP` (`cpu_6502.py`): assemble the status byte (`nvb1dizc`, bit 4
always set), push it, then decrement and wrap the stack pointer. -/
def CPU.PHP (m : Machine) (_mode : Mode) : Machine :=
  let val := (if m.n then 128 else 0) + (if m.v then 64 else 0) + (if m.b then 32 else 0)
    + 16 + (if m.d then 8 else 0) + (if m.i then 4 else 0) + (if m.z then 2 else 0)
    + (if m.c then 1 else 0)
  let loc := 0x0100 + m.sp
  let m := Bus.write m loc val
  { m with sp := CPU.wrap (m.sp - 1) }

/-- `CPU.PHA` (`cpu_6502.py`). -/
def CPU.PHA (m : Machine) (_mode : Mode) : Machine :=
  let loc := 0x0100 + m.sp
  let m := Bus.write m loc m.a
  { m with sp := CPU.wrap (m.sp - 1) }

/-- `CPU.PLA` (`cpu_6502.py`). -/
def CPU.PLA (m : Machine) (_mode : Mode) : Machine :=
  let m := { m with sp := CPU.wrap (m.sp + 1) }
  let loc := 0x100 + m.sp
  let t39 := Bus.read m loc
  let v := t39.1
  let m := t39.2
  let m := { m with a := v }
  CPU.set_nz m m.a

/-- `CPU.PLP` (`cpu_6502.py`): pull the status byte and decode every flag. -/
def CPU.PLP (m : Machine) (_mode : Mode) : Machine :=
  let m := { m with sp := CPU.wrap (m.sp + 1) }
  let loc := 0x100 + m.sp
  let t40 := Bus.read m loc
  let val := t40.1
  let m := t40.2
  { m with
    n := pyAnd val 128 = 128,
    v := pyAnd val 64 = 64,
    b := pyAnd val 32 = 32,
    d := pyAnd val 8 = 8,
    i := pyAnd val 4 = 4,
    z := pyAnd val 2 = 2,
    c := pyAnd val 1 = 1 }

/-- `CPU.handle_irq` (`cpu_6502.py`): push PC high then low (the stack
pointer is decremented *without* the 8-bit wrap used by `PHA`/`PHP`), push
the status byte with B cleared via `PHP`, set I, load the `$FFFE/$FFFF`
vector and drop the pending-IRQ flag. -/
def CPU.handle_irq (m : Machine) : Machine :=
  let m := Bus.write m (0x0100 + m.sp) (pyAnd (pyShr m.pc 8) 0xFF)
  let m := { m with sp := m.sp - 1 }
  let m := Bus.write m (0x0100 + m.sp) (pyAnd m.pc 0xFF)
  let m := { m with sp := m.sp - 1 }
  let m := { m with b := false }
  let m := CPU.PHP m Mode.IMPLIED
  let m := { m with i := true }
  let t41 := Bus.read m 0xFFFE
  let lsb := t41.1
  let m := t41.2
  let t42 := Bus.read m 0xFFFF
  let msb := t42.1
  let m := t42.2
  { m with pc := pyOr (pyShl msb 8) lsb, irq_pending := false }

/-- `CPU.handle_nmi` (`cpu_6502.py`): as `handle_irq` with the `$FFFA/$FFFB`
vector and the pending-NMI flag. -/
def CPU.handle_nmi (m : Machine) : Machine :=
  let m := Bus.write m (0x0100 + m.sp) (pyAnd (pyShr m.pc 8) 0xFF)
  let m := { m with sp := m.sp - 1 }
  let m := Bus.write m (0x0100 + m.sp) (pyAnd m.pc 0xFF)
  let m := { m with sp := m.sp - 1 }
  let m := { m with b := false }
  let m := CPU.PHP m Mode.IMPLIED
  let m := { m with i := true }
  let t43 := Bus.read m 0xFFFA
  let lsb := t43.1
  let m := t43.2
  let t44 := Bus.read m 0xFFFB
  let msb := t44.1
  let m := t44.2
  { m with pc := pyOr (pyShl msb 8) lsb, nmi_pending := false }

/-- `CPU.BIT` (`cpu_6502.py`). -/
def CPU.BIT (m : Machine) (mode : Mode) : Machine :=
  let t45 := CPU.get_location_by_mode m mode
  let loc := t45.1
  let m := t45.2
  let t46 := Bus.read m loc
  let value := t46.1
  let m := t46.2
  let result := pyAnd m.a value
  { m with
    z := decide (result = 0),
    n := pyTruthy (pyAnd value 0x80),
    v := pyTruthy (pyAnd value 0x40) }

/-- `CPU.LDA` (`cpu_6502.py`). -/
def CPU.LDA (m : Machine) (mode : Mode) : Machine :=
  let t47 := CPU.get_location_by_mode m mode
  let loc := t47.1
  let m := t47.2
  let t48 := Bus.read m loc
  let val := t48.1
  let m := t48.2
  let m := { m with a := val }
  CPU.set_nz m m.a

/-- `CPU.LDX` (`cpu_6502.py`). -/
def CPU.LDX (m : Machine) (mode : Mode) : Machine :=
  let t49 := CPU.get_location_by_mode m mode
  let loc := t49.1
  let m := t49.2
  let t50 := Bus.read m loc
  let val := t50.1
  let m := t50.2
  let m := { m with x := val }
  CPU.set_nz m m.x

/-- `CPU.LDY` (`cpu_6502.py`). -/
def CPU.LDY (m : Machine) (mode : Mode) : Machine :=
  let t51 := CPU.get_location_by_mode m mode
  let loc := t51.1
  let m := t51.2
  let t52 := Bus.read m loc
  let val := t52.1
  let m := t52.2
  let m := { m with y := val }
  CPU.set_nz m m.y

/-- `CPU.STA` (`cpu_6502.py`). -/
def CPU.STA (m : Machine) (mode : Mode) : Machine :=
  let t53 := CPU.get_location_by_mode m mode
  let loc := t53.1
  let m := t53.2
  Bus.write m loc m.a

/-- `CPU.STX` (`cpu_6502.py`). -/
def CPU.STX (m : Machine) (mode : Mode) : Machine :=
  let t54 := CPU.get_location_by_mode m mode
  let loc := t54.1
  let m := t54.2
  Bus.write m loc m.x

/-- `CPU.STY` (`cpu_6502.py`). -/
def CPU.STY (m : Machine) (mode : Mode) : Machine :=
  let t55 := CPU.get_location_by_mode m mode
  let loc := t55.1
  let m := t55.2
  Bus.write m loc m.y

/-- `CPU.INC` (`cpu_6502.py`). -/
def CPU.INC (m : Machine) (mode : Mode) : Machine :=
  let t56 := CPU.get_location_by_mode m mode
  let loc := t56.1
  let m := t56.2
  let t57 := Bus.read m loc
  let value := t57.1
  let m := t57.2
  let value := CPU.wrap (value + 1)
  let m := Bus.write m loc value
  CPU.set_nz m value

/-- `CPU.DEC` (`cpu_6502.py`). -/
def CPU.DEC (m : Machine) (mode : Mode) : Machine :=
  let t58 := CPU.get_location_by_mode m mode
  let loc := t58.1
  let m := t58.2
  let t59 := Bus.read m loc
  let value := t59.1
  let m := t59.2
  let value := CPU.wrap (value - 1)
  let m := Bus.write m loc value
  CPU.set_nz m value

/-- `CPU.SLO` (`cpu_6502.py`), undocumented ASL+ORA. -/
def CPU.SLO (m : Machine) (mode : Mode) : Machine :=
  let t60 := CPU.get_location_by_mode m mode
  let loc := t60.1
  let m := t60.2
  let t61 := Bus.read m loc
  let value := t61.1
  let m := t61.2
  let m := { m with c := pyTruthy (pyAnd value 0x80) }
  let value := pyAnd (pyShl value 1) 0xFF
  let m := Bus.write m loc value
  let m := { m with a := pyOr m.a value }
  CPU.set_nz m m.a

/-- `CPU.RLA` (`cpu_6502.py`), undocumented ROL+AND. -/
def CPU.RLA (m : Machine) (mode : Mode) : Machine :=
  let t62 := CPU.get_location_by_mode m mode
  let loc := t62.1
  let m := t62.2
  let t63 := Bus.read m loc
  let value := t63.1
  let m := t63.2
  let carry_in : Int := if m.c then 1 else 0
  let m := { m with c := pyTruthy (pyAnd value 0x80) }
  let value := pyAnd (pyOr (pyShl value 1) carry_in) 0xFF
  let m := Bus.write m loc value
  let m := { m with a := pyAnd m.a value }
  CPU.set_nz m m.a

/-- `CPU.SAX` (`cpu_6502.py`), undocumented store of `A AND X`. -/
def CPU.SAX (m : Machine) (mode : Mode) : Machine :=
  let t64 := CPU.get_location_by_mode m mode
  let loc := t64.1
  let m := t64.2
  Bus.write m loc (pyAnd m.a m.x)

/-- `CPU.LAX` (`cpu_6502.py`), undocumented LDA+LDX. -/
def CPU.LAX (m : Machine) (mode : Mode) : Machine :=
  let t65 := CPU.get_location_by_mode m mode
  let loc := t65.1
  let m := t65.2
  let t66 := Bus.read m loc
  let value := t66.1
  let m := t66.2
  let m := { m with a := value, x := value }
  CPU.set_nz m value

/-- `CPU.DCP` (`cpu_6502.py`), undocumented DEC+CMP. -/
def CPU.DCP (m : Machine) (mode : Mode) : Machine :=
  let t67 := CPU.get_location_by_mode m mode
  let loc := t67.1
  let m := t67.2
  let t68 := Bus.read m loc
  let value := t68.1
  let m := t68.2
  let value := pyAnd (value - 1) 0xFF
  let m := Bus.write m loc value
  let result := m.a - value
  let m := { m with c := decide (m.a ≥ value) }
  CPU.set_nz m result

/-- `CPU.INX` (`cpu_6502.py`). -/
def CPU.INX (m : Machine) (_mode : Mode) : Machine :=
  let m := { m with x := CPU.wrap (m.x + 1) }
  CPU.set_nz m m.x

/-- `CPU.INY` (`cpu_6502.py`). -/
def CPU.INY (m : Machine) (_mode : Mode) : Machine :=
  let m := { m with y := CPU.wrap (m.y + 1) }
  CPU.set_nz m m.y

/-- `CPU.DEX` (`cpu_6502.py`). -/
def CPU.DEX (m : Machine) (_mode : Mode) : Machine :=
  let m := { m with x := CPU.wrap (m.x - 1) }
  CPU.set_nz m m.x

/-- `CPU.DEY` (`cpu_6502.py`). -/
def CPU.DEY (m : Machine) (_mode : Mode) : Machine :=
  let m := { m with y := CPU.wrap (m.y - 1) }
  CPU.set_nz m m.y

/-- `CPU.TAX` (`cpu_6502.py`). -/
def CPU.TAX (m : Machine) (_mode : Mode) : Machine :=
  let m := { m with x := m.a }
  CPU.set_nz m m.a

/-- `CPU.TXA` (`cpu_6502.py`). -/
def CPU.TXA (m : Machine) (_mode : Mode) : Machine :=
  let m := { m with a := m.x }
  CPU.set_nz m m.a

/-- `CPU.TAY` (`cpu_6502.py`). -/
def CPU.TAY (m : Machine) (_mode : Mode) : Machine :=
  let m := { m with y := m.a }
  CPU.set_nz m m.y

/-- `CPU.TYA` (`cpu_6502.py`). -/
def CPU.TYA (m : Machine) (_mode : Mode) : Machine :=
  let m := { m with a := m.y }
  CPU.set_nz m m.a

/-- `CPU.CLC` (`cpu_6502.py`). -/
def CPU.CLC (m : Machine) (_mode : Mode) : Machine := { m with c := false }

/-- `CPU.SEC` (`cpu_6502.py`). -/
def CPU.SEC (m : Machine) (_mode : Mode) : Machine := { m with c := true }

/-- `CPU.CLI` (`cpu_6502.py`). -/
def CPU.CLI (m : Machine) (_mode : Mode) : Machine := { m with i := false }

/-- `CPU.SEI` (`cpu_6502.py`). -/
def CPU.SEI (m : Machine) (_mode : Mode) : Machine := { m with i := true }

/-- `CPU.CLV` (`cpu_6502.py`). -/
def CPU.CLV (m : Machine) (_mode : Mode) : Machine := { m with v := false }

/-- `CPU.CLD` (`cpu_6502.py`). -/
def CPU.CLD (m : Machine) (_mode : Mode) : Machine := { m with d := false }

/-- `CPU.SED` (`cpu_6502.py`). -/
def CPU.SED (m : Machine) (_mode : Mode) : Machine := { m with d := true }

/-- `CPU.increments` (`cpu_6502.py`): per-mode PC advance applied by
`tick` after the handler runs (final contents of `self.increments`). -/
def CPU.increments (mode : Mode) : Int :=
  match mode with
  | .IMMEDIATE => 2
  | .ZEROPAGE => 2
  | .ZEROPAGEX => 2
  | .ZEROPAGEY => 2
  | .ABSOLUTE => 3
  | .IMPLIED => 1
  | .ABSOLUTEX => 3
  | .ABSOLUTEY => 3
  | .INDIRECT => 3
  | .RELATIVE => 2
  | .ACCUMULATOR => 1
  | .INDIRECTX => 2
  | .INDIRECTY => 2

/-- `CPU.JMP` (`cpu_6502.py`): sets `pc := loc - increments[mode]` so that
the increment applied by `tick` lands on `loc`. -/
def CPU.JMP (m : Machine) (mode : Mode) : Machine :=
  let t69 := CPU.get_location_by_mode m mode
  let loc := t69.1
  let m := t69.2
  { m with pc := loc - CPU.increments mode }

/-- `CPU.CMP` (`cpu_6502.py`). -/
def CPU.CMP (m : Machine) (mode : Mode) : Machine :=
  let t70 := CPU.get_location_by_mode m mode
  let loc := t70.1
  let m := t70.2
  let t71 := Bus.read m loc
  let value := t71.1
  let m := t71.2
  let result := m.a - value
  let m := { m with c := decide (m.a ≥ value) }
  CPU.set_nz m result

/-- `CPU._compare` (`cpu_6502.py`), shared by CPX/CPY. -/
def CPU.compare_ (m : Machine) (mode : Mode) (register_value : Int) : Machine :=
  let t72 := CPU.get_location_by_mode m mode
  let loc := t72.1
  let m := t72.2
  let t73 := Bus.read m loc
  let value := t73.1
  let m := t73.2
  let result := register_value - value
  let m := { m with c := decide (register_value ≥ value) }
  CPU.set_nz m result

/-- `CPU.CPX` (`cpu_6502.py`). -/
def CPU.CPX (m : Machine) (mode : Mode) : Machine := CPU.compare_ m mode m.x

/-- `CPU.CPY` (`cpu_6502.py`). -/
def CPU.CPY (m : Machine) (mode : Mode) : Machine := CPU.compare_ m mode m.y

/-- `CPU._branch` (`cpu_6502.py`): on a taken branch add one cycle to
`cycles_remaining`, read the signed offset, add one more cycle on a page
change, and move the PC. -/
def CPU.branch_ (m : Machine) (condition : Bool) : Machine :=
  if condition then
    let m := { m with cycles_remaining := m.cycles_remaining + 1 }
    let t74 := CPU.get_location_by_mode m Mode.RELATIVE
    let loc := t74.1
    let m := t74.2
    let t75 := Bus.read m loc
    let value := t75.1
    let m := t75.2
    let value := if value ≥ 128 then value - 256 else value
    let new_pc := m.pc + value
    let m :=
      if pyAnd m.pc 0xFF00 ≠ pyAnd new_pc 0xFF00 then
        { m with cycles_remaining := m.cycles_remaining + 1 }
      else m
    { m with pc := m.pc + value }
  else m

/-- `CPU.BMI` (`cpu_6502.py`). -/
def CPU.BMI (m : Machine) (_mode : Mode) : Machine := CPU.branch_ m m.n

/-- `CPU.BPL` (`cpu_6502.py`). -/
def CPU.BPL (m : Machine) (_mode : Mode) : Machine := CPU.branch_ m (!m.n)

/-- `CPU.BVC` (`cpu_6502.py`) — note the source branches on V *set*. -/
def CPU.BVC (m : Machine) (_mode : Mode) : Machine := CPU.branch_ m m.v

/-- `CPU.BVS` (`cpu_6502.py`) — note the source branches on V *clear*. -/
def CPU.BVS (m : Machine) (_mode : Mode) : Machine := CPU.branch_ m (!m.v)

/-- `CPU.BCC` (`cpu_6502.py`). -/
def CPU.BCC (m : Machine) (_mode : Mode) : Machine := CPU.branch_ m (!m.c)

/-- `CPU.BCS` (`cpu_6502.py`). -/
def CPU.BCS (m : Machine) (_mode : Mode) : Machine := CPU.branch_ m m.c

/-- `CPU.BNE` (`cpu_6502.py`). -/
def CPU.BNE (m : Machine) (_mode : Mode) : Machine := CPU.branch_ m (!m.z)

/-- `CPU.BEQ` (`cpu_6502.py`). -/
def CPU.BEQ (m : Machine) (_mode : Mode) : Machine := CPU.branch_ m m.z

/-- `CPU.TXS` (`cpu_6502.py`). -/
def CPU.TXS (m : Machine) (_mode : Mode) : Machine := { m with sp := m.x }

/-- `CPU.TSX` (`cpu_6502.py`). -/
def CPU.TSX (m : Machine) (_mode : Mode) : Machine :=
  let m := { m with x := m.sp }
  CPU.set_nz m m.x

/-- `CPU.JSR` (`cpu_6502.py`): push `pc + 2` high then low (wrapping the
stack pointer), then jump like `JMP`. -/
def CPU.JSR (m : Machine) (mode : Mode) : Machine :=
  let loc := m.pc + 2
  let m := Bus.write m (0x0100 + m.sp) (pyAnd (pyShr loc 8) 0xFF)
  let m := { m with sp := CPU.wrap (m.sp - 1) }
  let m := Bus.write m (0x0100 + m.sp) (pyAnd loc 0xFF)
  let m := { m with sp := CPU.wrap (m.sp - 1) }
  let t76 := CPU.get_location_by_mode m mode
  let loc := t76.1
  let m := t76.2
  { m with pc := loc - CPU.increments mode }

/-- `CPU.RTS` (`cpu_6502.py`): pull low then high byte through `PLA`
(faithfully clobbering and restoring `A`, and leaving `PLA`'s N/Z effects),
then set `pc` to the pulled address. -/
def CPU.RTS (m : Machine) (mode : Mode) : Machine :=
  let temp_a := m.a
  let m := CPU.PLA m mode
  let lsb := m.a
  let m := CPU.PLA m mode
  let msb := m.a
  let m := { m with a := temp_a }
  { m with pc := msb * 256 + lsb }

/-- `CPU.RTI` (`cpu_6502.py`): `PLP` then `RTS`. -/
def CPU.RTI (m : Machine) (mode : Mode) : Machine :=
  CPU.RTS (CPU.PLP m mode) mode

/-- `CPU.ADC` (`cpu_6502.py`): BCD mode per nibble with the source's
correction sequence, binary mode with the standard signed-overflow
formula. -/
def CPU.ADC (m : Machine) (mode : Mode) : Machine :=
  let t77 := CPU.get_location_by_mode m mode
  let loc := t77.1
  let m := t77.2
  let t78 := Bus.read m loc
  let value := t78.1
  let m := t78.2
  if m.d then
    let carry : Int := if m.c then 1 else 0
    let low := pyAnd m.a 0x0F + pyAnd value 0x0F + carry
    let low := if low > 9 then low + 6 else low
    let high := pyShr m.a 4 + pyShr value 4
    let high := if low > 0x0F then high + 1 else high
    let high := if high > 9 then high + 6 else high
    let m := { m with c := decide (high > 0x0F) }
    let m := { m with a := pyOr (pyShl (pyAnd high 0x0F) 4) (pyAnd low 0x0F) }
    CPU.set_nz m m.a
  else
    let result := m.a + value + (if m.c then 1 else 0)
    let m := { m with v := pyTruthy (pyAnd (pyAnd (pyNot (pyXor m.a value)) (pyXor m.a result)) 0x80) }
    let m := { m with c := decide (result > 0xFF) }
    let m := { m with a := CPU.wrap result }
    CPU.set_nz m m.a

/-- `CPU.SBC` (`cpu_6502.py`): BCD mode per nibble with the source's
correction sequence, binary mode computing
`result = A - value - (1 - C)` and
`V = ((A ^ value) & (A ^ result)) & 0x80` on the unwrapped result. -/
def CPU.SBC (m : Machine) (mode : Mode) : Machine :=
  let t79 := CPU.get_location_by_mode m mode
  let loc := t79.1
  let m := t79.2
  let t80 := Bus.read m loc
  let value := t80.1
  let m := t80.2
  if m.d then
    let borrow : Int := if m.c then 0 else 1
    let low := pyAnd m.a 0x0F - pyAnd value 0x0F - borrow
    let low := if low < 0 then low - 6 else low
    let high := pyShr m.a 4 - pyShr value 4
    let high := if low < 0 then high - 1 else high
    let high := if high < 0 then high - 6 else high
    let m := { m with c := decide (high ≥ 0) }
    let m := { m with a := pyOr (pyShl (pyAnd high 0x0F) 4) (pyAnd low 0x0F) }
    CPU.set_nz m m.a
  else
    let result := m.a - value - (if m.c then 0 else 1)
    let m := { m with v := pyTruthy (pyAnd (pyAnd (pyXor m.a value) (pyXor m.a result)) 0x80) }
    let m := { m with c := decide (result ≥ 0) }
    let m := { m with a := CPU.wrap result }
    CPU.set_nz m m.a

/-- `CPU.AND` (`cpu_6502.py`). -/
def CPU.AND (m : Machine) (mode : Mode) : Machine :=
  let t81 := CPU.get_location_by_mode m mode
  let loc := t81.1
  let m := t81.2
  let t82 := Bus.read m loc
  let value := t82.1
  let m := t82.2
  let m := { m with a := pyAnd m.a value }
  CPU.set_nz m m.a

/-- `CPU.ORA` (`cpu_6502.py`). -/
def CPU.ORA (m : Machine) (mode : Mode) : Machine :=
  let t83 := CPU.get_location_by_mode m mode
  let loc := t83.1
  let m := t83.2
  let t84 := Bus.read m loc
  let value := t84.1
  let m := t84.2
  let m := { m with a := pyOr m.a value }
  CPU.set_nz m m.a

/-- `CPU.EOR` (`cpu_6502.py`). -/
def CPU.EOR (m : Machine) (mode : Mode) : Machine :=
  let t85 := CPU.get_location_by_mode m mode
  let loc := t85.1
  let m := t85.2
  let t86 := Bus.read m loc
  let value := t86.1
  let m := t86.2
  let m := { m with a := pyXor m.a value }
  CPU.set_nz m m.a

/-- `CPU.NOP` (`cpu_6502.py`). -/
def CPU.NOP (m : Machine) (_mode : Mode) : Machine := m

/-- `CPU.ASL` (`cpu_6502.py`) — note the source only ever *sets* C (a clear
bit 7 leaves the previous carry). -/
def CPU.ASL (m : Machine) (mode : Mode) : Machine :=
  if mode = Mode.ACCUMULATOR then
    let value := m.a
    let m := if pyAnd value 128 = 128 then { m with c := true } else m
    let value := CPU.wrap (pyShl value 1)
    let m := { m with a := value }
    CPU.set_nz m value
  else
    let t87 := CPU.get_location_by_mode m mode
    let loc := t87.1
    let m := t87.2
    let t88 := Bus.read m loc
    let value := t88.1
    let m := t88.2
    let m := if pyAnd value 128 = 128 then { m with c := true } else m
    let value := CPU.wrap (pyShl value 1)
    let m := Bus.write m loc value
    CPU.set_nz m value

/-- `CPU.LSR` (`cpu_6502.py`) — like `ASL`, C is only ever set. -/
def CPU.LSR (m : Machine) (mode : Mode) : Machine :=
  if mode = Mode.ACCUMULATOR then
    let value := m.a
    let m := if pyAnd value 1 = 1 then { m with c := true } else m
    let value := CPU.wrap (pyShr value 1)
    let m := { m with a := value }
    CPU.set_nz m value
  else
    let t89 := CPU.get_location_by_mode m mode
    let loc := t89.1
    let m := t89.2
    let t90 := Bus.read m loc
    let value := t90.1
    let m := t90.2
    let m := if pyAnd value 1 = 1 then { m with c := true } else m
    let value := CPU.wrap (pyShr value 1)
    let m := Bus.write m loc value
    CPU.set_nz m value

/-- `CPU.ROL` (`cpu_6502.py`). -/
def CPU.ROL (m : Machine) (mode : Mode) : Machine :=
  if mode = Mode.ACCUMULATOR then
    let value := m.a
    let temp : Int := if m.c then 1 else 0
    let m := { m with c := pyAnd value 128 = 128 }
    let value := pyOr (CPU.wrap (pyShl value 1)) temp
    let m := { m with a := value }
    CPU.set_nz m value
  else
    let t91 := CPU.get_location_by_mode m mode
    let loc := t91.1
    let m := t91.2
    let t92 := Bus.read m loc
    let value := t92.1
    let m := t92.2
    let temp : Int := if m.c then 1 else 0
    let m := { m with c := pyAnd value 128 = 128 }
    let value := pyOr (CPU.wrap (pyShl value 1)) temp
    let m := Bus.write m loc value
    CPU.set_nz m value

/-- `CPU.ROR` (`cpu_6502.py`). -/
def CPU.ROR (m : Machine) (mode : Mode) : Machine :=
  if mode = Mode.ACCUMULATOR then
    let value := m.a
    let temp : Int := if m.c then 128 else 0
    let m := { m with c := pyAnd value 1 = 1 }
    let value := pyOr (CPU.wrap (pyShr value 1)) temp
    let m := { m with a := value }
    CPU.set_nz m value
  else
    let t93 := CPU.get_location_by_mode m mode
    let loc := t93.1
    let m := t93.2
    let t94 := Bus.read m loc
    let value := t94.1
    let m := t94.2
    let temp : Int := if m.c then 128 else 0
    let m := { m with c := pyAnd value 1 = 1 }
    let value := pyOr (CPU.wrap (pyShr value 1)) temp
    let m := Bus.write m loc value
    CPU.set_nz m value

/-- `CPU.handle_kernal_load` (`cpu_6502.py`): the HLE LOAD trap.  Returns
Python's boolean (whether the trap handled the call) with the new machine;
`none` marks a Python run that raises (a found file shorter than the 2-byte
load address).  On success the payload is written through the bus, C is
cleared and `pc += 2`; on file-not-found C is set and `pc += 2`. -/
def CPU.handle_kernal_load (codec : PetsciiCodec) (m : Machine) : Option (Bool × Machine) :=
  if ¬ Drive.attached m.drive then some (false, m)
  else
    let t95 := Bus.read m 0xB8
    let filename_len := t95.1
    let m := t95.2
    let t96 := Bus.read m 0xBB
    let bb := t96.1
    let m := t96.2
    let t97 := Bus.read m 0xBC
    let bc := t97.1
    let m := t97.2
    let filename_addr := pyOr bb (pyShl bc 8)
    let t98 := (List.range filename_len.toNat).foldl
      (fun (acc : List Int × Machine) (k : Nat) =>
        let t99 := Bus.read acc.2 (filename_addr + (k : Int))
        let v := t99.1
        let m := t99.2
        (acc.1 ++ [v], m)) ([], m)
    let filename_bytes := t98.1
    let m := t98.2
    let filename := codec.decode filename_bytes
    match DiskDrive1541.load_file m.drive filename with
    | none => none
    | some file_data =>
      match file_data with
      | some (b0 :: b1 :: rest) =>
        let load_addr := pyOr b0 (pyShl b1 8)
        let program_data := rest
        let m := (program_data.enum).foldl
          (fun m (iv : Nat × Int) => Bus.write m (load_addr + (iv.1 : Int)) iv.2) m
        let m := { m with c := false }
        let m := { m with pc := m.pc + 2 }
        some (true, m)
      | some [_] => none
      | some [] =>
        -- an empty list is falsy in Python: treated like not-found
        let m := { m with c := true }
        let m := { m with pc := m.pc + 2 }
        some (true, m)
      | none =>
        let m := { m with c := true }
        let m := { m with pc := m.pc + 2 }
        some (true, m)

/-- `CPU.handle_kernal_save` (`cpu_6502.py`): the HLE SAVE trap, symmetric
to LOAD using `$2B/$2C` and `$2D/$2E` for the stored range. -/
def CPU.handle_kernal_save (codec : PetsciiCodec) (m : Machine) : Option (Bool × Machine) :=
  if ¬ Drive.attached m.drive then some (false, m)
  else
    let t100 := Bus.read m 0xB8
    let filename_len := t100.1
    let m := t100.2
    let t101 := Bus.read m 0xBB
    let bb := t101.1
    let m := t101.2
    let t102 := Bus.read m 0xBC
    let bc := t102.1
    let m := t102.2
    let filename_addr := pyOr bb (pyShl bc 8)
    let t103 := (List.range filename_len.toNat).foldl
      (fun (acc : List Int × Machine) (k : Nat) =>
        let t104 := Bus.read acc.2 (filename_addr + (k : Int))
        let v := t104.1
        let m := t104.2
        (acc.1 ++ [v], m)) ([], m)
    let filename_bytes := t103.1
    let m := t103.2
    let filename := codec.decode filename_bytes
    let t105 := Bus.read m 0x2B
    let sb := t105.1
    let m := t105.2
    let t106 := Bus.read m 0x2C
    let sc := t106.1
    let m := t106.2
    let start_addr := pyOr sb (pyShl sc 8)
    let t107 := Bus.read m 0x2D
    let eb := t107.1
    let m := t107.2
    let t108 := Bus.read m 0x2E
    let ec := t108.1
    let m := t108.2
    let end_addr := pyOr eb (pyShl ec 8)
    let t109 := (List.range (end_addr - start_addr).toNat).foldl
      (fun (acc : List Int × Machine) (k : Nat) =>
        let t110 := Bus.read acc.2 (start_addr + (k : Int))
        let v := t110.1
        let m := t110.2
        (acc.1 ++ [v], m)) ([], m)
    let mem_bytes := t109.1
    let m := t109.2
    let data_to_save := [pyAnd start_addr 0xFF, pyShr start_addr 8] ++ mem_bytes
    match DiskDrive1541.save_file codec.encode m.drive filename data_to_save with
    | none => none
    | some (d, ok) =>
      let m := { m with drive := d }
      let m := if ok then { m with c := false } else { m with c := true }
      let m := { m with pc := m.pc + 2 }
      some (true, m)

/-- `CPU.BRK` (`cpu_6502.py`): the `pc+1 == $FFD5` KERNAL-trap shortcut,
else `pc += 1`, set I, run the IRQ entry sequence, then set B. -/
def CPU.BRK (codec : PetsciiCodec) (m : Machine) (_mode : Mode) : Option Machine :=
  if m.pc + 1 = 0xFFD5 then
    match CPU.handle_kernal_load codec m with
    | none => none
    | some (true, m) => some { m with pc := m.pc + 2 }
    | some (false, m) =>
      let m := { m with pc := m.pc + 1 }
      let m := { m with i := true }
      let m := CPU.handle_irq m
      some { m with b := true }
  else
    let m := { m with pc := m.pc + 1 }
    let m := { m with i := true }
    let m := CPU.handle_irq m
    some { m with b := true }

/-- The final contents of `self.commands` (`cpu_6502.py`): the literal
dispatch dictionary, the four post-added DCP modes and the undocumented NOPs
added (as `NOP`/`IMPLIED`) by the `nop_cycles` loop, as an association list. -/
def CPU.commandsTable : List (Int × Instr × Mode) :=
[
  (0x00, Instr.BRK, Mode.IMPLIED),
  (0x40, Instr.RTI, Mode.IMPLIED),
  (0xA9, Instr.LDA, Mode.IMMEDIATE),
  (0xA5, Instr.LDA, Mode.ZEROPAGE),
  (0xAD, Instr.LDA, Mode.ABSOLUTE),
  (0xB5, Instr.LDA, Mode.ZEROPAGEX),
  (0xA1, Instr.LDA, Mode.INDIRECTX),
  (0xB1, Instr.LDA, Mode.INDIRECTY),
  (0xBD, Instr.LDA, Mode.ABSOLUTEX),
  (0xB9, Instr.LDA, Mode.ABSOLUTEY),
  (0xA2, Instr.LDX, Mode.IMMEDIATE),
  (0xA6, Instr.LDX, Mode.ZEROPAGE),
  (0xB6, Instr.LDX, Mode.ZEROPAGEY),
  (0xAE, Instr.LDX, Mode.ABSOLUTE),
  (0xBE, Instr.LDX, Mode.ABSOLUTEY),
  (0xA0, Instr.LDY, Mode.IMMEDIATE),
  (0xA4, Instr.LDY, Mode.ZEROPAGE),
  (0xB4, Instr.LDY, Mode.ZEROPAGEX),
  (0xAC, Instr.LDY, Mode.ABSOLUTE),
  (0xBC, Instr.LDY, Mode.ABSOLUTEX),
  (0x85, Instr.STA, Mode.ZEROPAGE),
  (0x95, Instr.STA, Mode.ZEROPAGEX),
  (0x8D, Instr.STA, Mode.ABSOLUTE),
  (0x9D, Instr.STA, Mode.ABSOLUTEX),
  (0x99, Instr.STA, Mode.ABSOLUTEY),
  (0x81, Instr.STA, Mode.INDIRECTX),
  (0x91, Instr.STA, Mode.INDIRECTY),
  (0x86, Instr.STX, Mode.ZEROPAGE),
  (0x96, Instr.STX, Mode.ZEROPAGEY),
  (0x8E, Instr.STX, Mode.ABSOLUTE),
  (0x84, Instr.STY, Mode.ZEROPAGE),
  (0x94, Instr.STY, Mode.ZEROPAGEX),
  (0x8C, Instr.STY, Mode.ABSOLUTE),
  (0xE8, Instr.INX, Mode.IMPLIED),
  (0xC8, Instr.INY, Mode.IMPLIED),
  (0xCA, Instr.DEX, Mode.IMPLIED),
  (0x88, Instr.DEY, Mode.IMPLIED),
  (0xAA, Instr.TAX, Mode.IMPLIED),
  (0x8A, Instr.TXA, Mode.IMPLIED),
  (0xA8, Instr.TAY, Mode.IMPLIED),
  (0x98, Instr.TYA, Mode.IMPLIED),
  (0x18, Instr.CLC, Mode.IMPLIED),
  (0x38, Instr.SEC, Mode.IMPLIED),
  (0x58, Instr.CLI, Mode.IMPLIED),
  (0x78, Instr.SEI, Mode.IMPLIED),
  (0xB8, Instr.CLV, Mode.IMPLIED),
  (0xD8, Instr.CLD, Mode.IMPLIED),
  (0xF8, Instr.SED, Mode.IMPLIED),
  (0x4C, Instr.JMP, Mode.ABSOLUTE),
  (0x6C, Instr.JMP, Mode.INDIRECT),
  (0xC9, Instr.CMP, Mode.IMMEDIATE),
  (0xC5, Instr.CMP, Mode.ZEROPAGE),
  (0xD5, Instr.CMP, Mode.ZEROPAGEX),
  (0xCD, Instr.CMP, Mode.ABSOLUTE),
  (0xDD, Instr.CMP, Mode.ABSOLUTEX),
  (0xD9, Instr.CMP, Mode.ABSOLUTEY),
  (0xC1, Instr.CMP, Mode.INDIRECTX),
  (0xD1, Instr.CMP, Mode.INDIRECTY),
  (0x10, Instr.BPL, Mode.RELATIVE),
  (0x30, Instr.BMI, Mode.RELATIVE),
  (0x50, Instr.BVC, Mode.RELATIVE),
  (0x70, Instr.BVS, Mode.RELATIVE),
  (0x90, Instr.BCC, Mode.RELATIVE),
  (0xB0, Instr.BCS, Mode.RELATIVE),
  (0xD0, Instr.BNE, Mode.RELATIVE),
  (0xF0, Instr.BEQ, Mode.RELATIVE),
  (0x9A, Instr.TXS, Mode.IMPLIED),
  (0xBA, Instr.TSX, Mode.IMPLIED),
  (0x48, Instr.PHA, Mode.IMPLIED),
  (0x68, Instr.PLA, Mode.IMPLIED),
  (0x08, Instr.PHP, Mode.IMPLIED),
  (0x28, Instr.PLP, Mode.IMPLIED),
  (0x20, Instr.JSR, Mode.ABSOLUTE),
  (0x60, Instr.RTS, Mode.IMPLIED),
  (0x69, Instr.ADC, Mode.IMMEDIATE),
  (0x65, Instr.ADC, Mode.ZEROPAGE),
  (0x75, Instr.ADC, Mode.ZEROPAGEX),
  (0x6D, Instr.ADC, Mode.ABSOLUTE),
  (0x7D, Instr.ADC, Mode.ABSOLUTEX),
  (0x79, Instr.ADC, Mode.ABSOLUTEY),
  (0x61, Instr.ADC, Mode.INDIRECTX),
  (0x71, Instr.ADC, Mode.INDIRECTY),
  (0x29, Instr.AND, Mode.IMMEDIATE),
  (0x25, Instr.AND, Mode.ZEROPAGE),
  (0x35, Instr.AND, Mode.ZEROPAGEX),
  (0x2D, Instr.AND, Mode.ABSOLUTE),
  (0x3D, Instr.AND, Mode.ABSOLUTEX),
  (0x39, Instr.AND, Mode.ABSOLUTEY),
  (0x21, Instr.AND, Mode.INDIRECTX),
  (0x31, Instr.AND, Mode.INDIRECTY),
  (0x09, Instr.ORA, Mode.IMMEDIATE),
  (0x05, Instr.ORA, Mode.ZEROPAGE),
  (0x15, Instr.ORA, Mode.ZEROPAGEX),
  (0x0D, Instr.ORA, Mode.ABSOLUTE),
  (0x1D, Instr.ORA, Mode.ABSOLUTEX),
  (0x19, Instr.ORA, Mode.ABSOLUTEY),
  (0x01, Instr.ORA, Mode.INDIRECTX),
  (0x11, Instr.ORA, Mode.INDIRECTY),
  (0x49, Instr.EOR, Mode.IMMEDIATE),
  (0x45, Instr.EOR, Mode.ZEROPAGE),
  (0x55, Instr.EOR, Mode.ZEROPAGEX),
  (0x4D, Instr.EOR, Mode.ABSOLUTE),
  (0x5D, Instr.EOR, Mode.ABSOLUTEX),
  (0x59, Instr.EOR, Mode.ABSOLUTEY),
  (0x41, Instr.EOR, Mode.INDIRECTX),
  (0x51, Instr.EOR, Mode.INDIRECTY),
  (0xE9, Instr.SBC, Mode.IMMEDIATE),
  (0xE5, Instr.SBC, Mode.ZEROPAGE),
  (0xF5, Instr.SBC, Mode.ZEROPAGEX),
  (0xED, Instr.SBC, Mode.ABSOLUTE),
  (0xFD, Instr.SBC, Mode.ABSOLUTEX),
  (0xF9, Instr.SBC, Mode.ABSOLUTEY),
  (0xE1, Instr.SBC, Mode.INDIRECTX),
  (0xF1, Instr.SBC, Mode.INDIRECTY),
  (0xEA, Instr.NOP, Mode.IMPLIED),
  (0x0A, Instr.ASL, Mode.ACCUMULATOR),
  (0x06, Instr.ASL, Mode.ZEROPAGE),
  (0x16, Instr.ASL, Mode.ZEROPAGEX),
  (0x0E, Instr.ASL, Mode.ABSOLUTE),
  (0x1E, Instr.ASL, Mode.ABSOLUTEX),
  (0x4A, Instr.LSR, Mode.ACCUMULATOR),
  (0x46, Instr.LSR, Mode.ZEROPAGE),
  (0x56, Instr.LSR, Mode.ZEROPAGEX),
  (0x4E, Instr.LSR, Mode.ABSOLUTE),
  (0x5E, Instr.LSR, Mode.ABSOLUTEX),
  (0x2A, Instr.ROL, Mode.ACCUMULATOR),
  (0x26, Instr.ROL, Mode.ZEROPAGE),
  (0x36, Instr.ROL, Mode.ZEROPAGEX),
  (0x2E, Instr.ROL, Mode.ABSOLUTE),
  (0x3E, Instr.ROL, Mode.ABSOLUTEX),
  (0x6A, Instr.ROR, Mode.ACCUMULATOR),
  (0x66, Instr.ROR, Mode.ZEROPAGE),
  (0x76, Instr.ROR, Mode.ZEROPAGEX),
  (0x6E, Instr.ROR, Mode.ABSOLUTE),
  (0x7E, Instr.ROR, Mode.ABSOLUTEX),
  (0x24, Instr.BIT, Mode.ZEROPAGE),
  (0x2C, Instr.BIT, Mode.ABSOLUTE),
  (0xE0, Instr.CPX, Mode.IMMEDIATE),
  (0xE4, Instr.CPX, Mode.ZEROPAGE),
  (0xEC, Instr.CPX, Mode.ABSOLUTE),
  (0xC0, Instr.CPY, Mode.IMMEDIATE),
  (0xC4, Instr.CPY, Mode.ZEROPAGE),
  (0xCC, Instr.CPY, Mode.ABSOLUTE),
  (0xE6, Instr.INC, Mode.ZEROPAGE),
  (0xF6, Instr.INC, Mode.ZEROPAGEX),
  (0xEE, Instr.INC, Mode.ABSOLUTE),
  (0xFE, Instr.INC, Mode.ABSOLUTEX),
  (0xC6, Instr.DEC, Mode.ZEROPAGE),
  (0xD6, Instr.DEC, Mode.ZEROPAGEX),
  (0xCE, Instr.DEC, Mode.ABSOLUTE),
  (0xDE, Instr.DEC, Mode.ABSOLUTEX),
  (0x07, Instr.SLO, Mode.ZEROPAGE),
  (0x17, Instr.SLO, Mode.ZEROPAGEX),
  (0x03, Instr.SLO, Mode.INDIRECTX),
  (0x13, Instr.SLO, Mode.INDIRECTY),
  (0x0F, Instr.SLO, Mode.ABSOLUTE),
  (0x1F, Instr.SLO, Mode.ABSOLUTEX),
  (0x1B, Instr.SLO, Mode.ABSOLUTEY),
  (0x27, Instr.RLA, Mode.ZEROPAGE),
  (0x37, Instr.RLA, Mode.ZEROPAGEX),
  (0x23, Instr.RLA, Mode.INDIRECTX),
  (0x33, Instr.RLA, Mode.INDIRECTY),
  (0x2F, Instr.RLA, Mode.ABSOLUTE),
  (0x3F, Instr.RLA, Mode.ABSOLUTEX),
  (0x3B, Instr.RLA, Mode.ABSOLUTEY),
  (0x87, Instr.SAX, Mode.ZEROPAGE),
  (0x97, Instr.SAX, Mode.ZEROPAGEY),
  (0x83, Instr.SAX, Mode.INDIRECTX),
  (0x8F, Instr.SAX, Mode.ABSOLUTE),
  (0xA7, Instr.LAX, Mode.ZEROPAGE),
  (0xB7, Instr.LAX, Mode.ZEROPAGEY),
  (0xA3, Instr.LAX, Mode.INDIRECTX),
  (0xB3, Instr.LAX, Mode.INDIRECTY),
  (0xAF, Instr.LAX, Mode.ABSOLUTE),
  (0xBF, Instr.LAX, Mode.ABSOLUTEY),
  (0xC7, Instr.DCP, Mode.ZEROPAGE),
  (0xC3, Instr.DCP, Mode.INDIRECTX),
  (0xCF, Instr.DCP, Mode.ABSOLUTE),
  (0xD7, Instr.DCP, Mode.ZEROPAGEX),
  (0xDF, Instr.DCP, Mode.ABSOLUTEX),
  (0xDB, Instr.DCP, Mode.ABSOLUTEY),
  (0xD3, Instr.DCP, Mode.INDIRECTY),
  (0x1A, Instr.NOP, Mode.IMPLIED),
  (0x3A, Instr.NOP, Mode.IMPLIED),
  (0x5A, Instr.NOP, Mode.IMPLIED),
  (0x7A, Instr.NOP, Mode.IMPLIED),
  (0xDA, Instr.NOP, Mode.IMPLIED),
  (0xFA, Instr.NOP, Mode.IMPLIED),
  (0x80, Instr.NOP, Mode.IMPLIED),
  (0x82, Instr.NOP, Mode.IMPLIED),
  (0x89, Instr.NOP, Mode.IMPLIED),
  (0xC2, Instr.NOP, Mode.IMPLIED),
  (0xE2, Instr.NOP, Mode.IMPLIED),
  (0x04, Instr.NOP, Mode.IMPLIED),
  (0x44, Instr.NOP, Mode.IMPLIED),
  (0x64, Instr.NOP, Mode.IMPLIED),
  (0x14, Instr.NOP, Mode.IMPLIED),
  (0x34, Instr.NOP, Mode.IMPLIED),
  (0x54, Instr.NOP, Mode.IMPLIED),
  (0x74, Instr.NOP, Mode.IMPLIED),
  (0xD4, Instr.NOP, Mode.IMPLIED),
  (0xF4, Instr.NOP, Mode.IMPLIED),
  (0x0C, Instr.NOP, Mode.IMPLIED),
  (0x1C, Instr.NOP, Mode.IMPLIED),
  (0x3C, Instr.NOP, Mode.IMPLIED),
  (0x5C, Instr.NOP, Mode.IMPLIED),
  (0x7C, Instr.NOP, Mode.IMPLIED),
  (0xDC, Instr.NOP, Mode.IMPLIED),
  (0xFC, Instr.NOP, Mode.IMPLIED)
]

/-- Dictionary lookup `command in self.commands` / `self.commands[command]`
over the table above. -/
def CPU.commands (op : Int) : Option (Instr × Mode) :=
  (CPU.commandsTable.find? (fun e => e.1 = op)).map (fun e => e.2)

/-- The final contents of `self.cycles` (`cpu_6502.py`): the base table,
updated by `undocumented_cycles` and then by `nop_cycles` (the updates only
change `0x04`, from the base 0, to 3; the others add new keys).  `tick`
reads it with `self.cycles.get(command, 2)`, the default handled here. -/
def CPU.cyclesTable : List (Int × Int) :=
[
  (0x00, 7), (0x01, 0), (0x05, 3), (0x06, 5), (0x07, 5),
  (0x08, 2), (0x09, 2), (0x0A, 2), (0x0D, 4), (0x0E, 6),
  (0x10, 2), (0x11, 5), (0x15, 4), (0x16, 6), (0x17, 6),
  (0x18, 2), (0x19, 4), (0x1D, 4), (0x1E, 7), (0x20, 6),
  (0x21, 6), (0x24, 3), (0x25, 3), (0x26, 5), (0x28, 2),
  (0x29, 2), (0x2A, 2), (0x2C, 4), (0x2D, 4), (0x2E, 6),
  (0x30, 2), (0x31, 5), (0x35, 4), (0x36, 6), (0x38, 2),
  (0x39, 4), (0x3D, 4), (0x3E, 7), (0x40, 6), (0x41, 6),
  (0x45, 3), (0x46, 5), (0x48, 3), (0x49, 2), (0x4A, 2),
  (0x4C, 3), (0x4D, 4), (0x4E, 6), (0x50, 2), (0x51, 5),
  (0x55, 4), (0x56, 6), (0x58, 2), (0x59, 4), (0x5D, 4),
  (0x5E, 7), (0x60, 6), (0x61, 6), (0x65, 3), (0x66, 5),
  (0x68, 4), (0x69, 2), (0x6A, 2), (0x6C, 5), (0x6D, 4),
  (0x6E, 6), (0x70, 2), (0x71, 5), (0x75, 4), (0x76, 6),
  (0x78, 2), (0x79, 4), (0x7D, 4), (0x7E, 7), (0x81, 6),
  (0x84, 3), (0x85, 3), (0x86, 3), (0x88, 2), (0x8A, 2),
  (0x8C, 4), (0x8D, 4), (0x8E, 4), (0x90, 2), (0x91, 6),
  (0x94, 4), (0x95, 4), (0x96, 4), (0x98, 2), (0x99, 5),
  (0x9A, 2), (0x9D, 5), (0xA0, 2), (0xA1, 6), (0xA2, 2),
  (0xA4, 3), (0xA5, 3), (0xA6, 3), (0xA8, 2), (0xA9, 2),
  (0xAA, 2), (0xAC, 4), (0xAD, 4), (0xAE, 4), (0xB0, 2),
  (0xB1, 5), (0xB4, 4), (0xB5, 4), (0xB6, 4), (0xB8, 2),
  (0xB9, 4), (0xBA, 2), (0xBC, 4), (0xBD, 4), (0xBE, 4),
  (0xC0, 2), (0xC1, 6), (0xC4, 3), (0xC5, 3), (0xC6, 5),
  (0xC8, 2), (0xC9, 2), (0xCA, 2), (0xCC, 4), (0xCD, 4),
  (0xCE, 6), (0xD0, 2), (0xD1, 5), (0xD5, 4), (0xD6, 6),
  (0xD8, 2), (0xD9, 4), (0xDD, 4), (0xDE, 7), (0xE0, 2),
  (0xE1, 6), (0xE4, 3), (0xE5, 3), (0xE6, 5), (0xE8, 2),
  (0xE9, 2), (0xEA, 2), (0xEC, 4), (0xED, 4), (0xEE, 6),
  (0xF0, 2), (0xF1, 5), (0xF5, 4), (0xF6, 6), (0xF8, 2),
  (0xF9, 4), (0xFD, 4), (0xFE, 7), (0x03, 8), (0x13, 8),
  (0x0F, 6), (0x1F, 7), (0x1B, 7), (0x27, 5), (0x37, 6),
  (0x23, 8), (0x33, 8), (0x2F, 6), (0x3F, 7), (0x3B, 7),
  (0x87, 3), (0x97, 4), (0x83, 6), (0x8F, 4), (0xA7, 3),
  (0xB7, 4), (0xA3, 6), (0xB3, 5), (0xAF, 4), (0xBF, 4),
  (0xC7, 5), (0xD7, 6), (0xC3, 8), (0xD3, 8), (0xCF, 6),
  (0xDF, 7), (0xDB, 7), (0x1A, 2), (0x3A, 2), (0x5A, 2),
  (0x7A, 2), (0xDA, 2), (0xFA, 2), (0x80, 2), (0x82, 2),
  (0x89, 2), (0xC2, 2), (0xE2, 2), (0x04, 3), (0x44, 3),
  (0x64, 3), (0x14, 4), (0x34, 4), (0x54, 4), (0x74, 4),
  (0xD4, 4), (0xF4, 4), (0x0C, 4), (0x1C, 4), (0x3C, 4),
  (0x5C, 4), (0x7C, 4), (0xDC, 4), (0xFC, 4)
]

/-- `self.cycles.get(command, 2)` as read by `tick`. -/
def CPU.cyclesOf (op : Int) : Int :=
  match CPU.cyclesTable.find? (fun e => e.1 = op) with
  | some e => e.2
  | none => 2

/-- Dispatch one decoded instruction to its handler (`self.commands[...]["f"]`
applied in `tick`); only `BRK` can fail (via the KERNAL trap crash path). -/
def CPU.execHandler (codec : PetsciiCodec) (h : Instr) (mode : Mode) (m : Machine) :
    Option Machine :=
  match h with
  | .BRK => CPU.BRK codec m mode
  | .RTI => some (CPU.RTI m mode)
  | .LDA => some (CPU.LDA m mode)
  | .LDX => some (CPU.LDX m mode)
  | .LDY => some (CPU.LDY m mode)
  | .STA => some (CPU.STA m mode)
  | .STX => some (CPU.STX m mode)
  | .STY => some (CPU.STY m mode)
  | .INX => some (CPU.INX m mode)
  | .INY => some (CPU.INY m mode)
  | .DEX => some (CPU.DEX m mode)
  | .DEY => some (CPU.DEY m mode)
  | .TAX => some (CPU.TAX m mode)
  | .TXA => some (CPU.TXA m mode)
  | .TAY => some (CPU.TAY m mode)
  | .TYA => some (CPU.TYA m mode)
  | .CLC => some (CPU.CLC m mode)
  | .SEC => some (CPU.SEC m mode)
  | .CLI => some (CPU.CLI m mode)
  | .SEI => some (CPU.SEI m mode)
  | .CLV => some (CPU.CLV m mode)
  | .CLD => some (CPU.CLD m mode)
  | .SED => some (CPU.SED m mode)
  | .JMP => some (CPU.JMP m mode)
  | .CMP => some (CPU.CMP m mode)
  | .CPX => some (CPU.CPX m mode)
  | .CPY => some (CPU.CPY m mode)
  | .BPL => some (CPU.BPL m mode)
  | .BMI => some (CPU.BMI m mode)
  | .BVC => some (CPU.BVC m mode)
  | .BVS => some (CPU.BVS m mode)
  | .BCC => some (CPU.BCC m mode)
  | .BCS => some (CPU.BCS m mode)
  | .BNE => some (CPU.BNE m mode)
  | .BEQ => some (CPU.BEQ m mode)
  | .TXS => some (CPU.TXS m mode)
  | .TSX => some (CPU.TSX m mode)
  | .PHA => some (CPU.PHA m mode)
  | .PLA => some (CPU.PLA m mode)
  | .PHP => some (CPU.PHP m mode)
  | .PLP => some (CPU.PLP m mode)
  | .JSR => some (CPU.JSR m mode)
  | .RTS => some (CPU.RTS m mode)
  | .ADC => some (CPU.ADC m mode)
  | .SBC => some (CPU.SBC m mode)
  | .AND => some (CPU.AND m mode)
  | .ORA => some (CPU.ORA m mode)
  | .EOR => some (CPU.EOR m mode)
  | .NOP => some (CPU.NOP m mode)
  | .ASL => some (CPU.ASL m mode)
  | .LSR => some (CPU.LSR m mode)
  | .ROL => some (CPU.ROL m mode)
  | .ROR => some (CPU.ROR m mode)
  | .BIT => some (CPU.BIT m mode)
  | .INC => some (CPU.INC m mode)
  | .DEC => some (CPU.DEC m mode)
  | .SLO => some (CPU.SLO m mode)
  | .RLA => some (CPU.RLA m mode)
  | .SAX => some (CPU.SAX m mode)
  | .LAX => some (CPU.LAX m mode)
  | .DCP => some (CPU.DCP m mode)

/-- The interrupt/peripheral phase at the top of `CPU.tick` (`cpu_6502.py`):
VIC tick, badline cycle theft, both CIA ticks (each may request an IRQ —
CIA2 included, since `CIA.tick` hard-codes `self.cpu.irq()`), then NMI and
(I-flag gated) IRQ servicing. -/
def CPU.tickInterruptPhase (m : Machine) : Machine :=
  let m := VICII.tick m
  let m :=
    if VICII.is_badline m.vic then
      { m with cycles_remaining := m.cycles_remaining - VICII.get_cycles_stolen }
    else m
  let t111 := CIA.tick m.cia1
  let cia1 := t111.1
  let r1 := t111.2
  let m := { m with cia1 := cia1 }
  let m := if r1 then { m with irq_pending := true } else m
  let t112 := CIA.tick m.cia2
  let cia2 := t112.1
  let r2 := t112.2
  let m := { m with cia2 := cia2 }
  let m := if r2 then { m with irq_pending := true } else m
  let m := if m.nmi_pending then CPU.handle_nmi m else m
  if m.irq_pending && !m.i then CPU.handle_irq m else m

/-- The fetch/execute tail of `CPU.tick` (`cpu_6502.py`), after the KERNAL
trap checks: the (repeated) opcode read, the breakpoint check (the debugger
shell is the identity here), the `cycles_remaining` countdown for a running
instruction, and otherwise decode, page-cross penalty, handler dispatch, PC
increment and `total_cycles` accounting.  An unknown opcode only reports and
enters the debugger, leaving the machine unchanged. -/
def CPU.tickFetchExec (codec : PetsciiCodec) (m : Machine) : Option Machine :=
  let t113 := Bus.read m m.pc
  let _command := t113.1
  let m := t113.2
  if m.cycles_remaining > 0 then
    some { m with cycles_remaining := m.cycles_remaining - 1 }
  else
    let t114 := Bus.read m m.pc
    let command := t114.1
    let m := t114.2
    match CPU.commands command with
    | some (f, mode) =>
      let cycles := CPU.cyclesOf command
      let tPB :=
        if mode = Mode.ABSOLUTEX ∨ mode = Mode.ABSOLUTEY ∨ mode = Mode.INDIRECTY then
          CPU.page_boundary_crossed m mode
        else (false, m)
      let crossed := tPB.1
      let m := tPB.2
      let cycles := if crossed then cycles + 1 else cycles
      let m := { m with cycles_remaining := cycles }
      match CPU.execHandler codec f mode m with
      | none => none
      | some m =>
        some { m with pc := m.pc + CPU.increments mode,
                      total_cycles := m.total_cycles + cycles }
    | none => some m

/-- `CPU.tick` (`cpu_6502.py`): the full per-cycle step — interrupt phase,
the `$FFD5`/`$FFD8` KERNAL trap checks (returning early when handled), then
fetch/execute.  `none` marks a Python run that raises inside a trap. -/
def CPU.tick (codec : PetsciiCodec) (m : Machine) : Option Machine :=
  let m := CPU.tickInterruptPhase m
  if m.pc = 0xFFD5 then
    match CPU.handle_kernal_load codec m with
    | none => none
    | some (true, m) => some m
    | some (false, m) =>
      if m.pc = 0xFFD8 then
        match CPU.handle_kernal_save codec m with
        | none => none
        | some (true, m) => some m
        | some (false, m) => CPU.tickFetchExec codec m
      else CPU.tickFetchExec codec m
  else if m.pc = 0xFFD8 then
    match CPU.handle_kernal_save codec m with
    | none => none
    | some (true, m) => some m
    | some (false, m) => CPU.tickFetchExec codec m
  else CPU.tickFetchExec codec m

/-- The `'cpu'` sub-dictionary of a rewind snapshot
(`CPU._capture_state_for_rewind`, `cpu_6502.py`). -/
structure RewindCPU : Type where
  a : Int
  x : Int
  y : Int
  pc : Int
  sp : Int
  n : Bool
  v : Bool
  b : Bool
  d : Bool
  i : Bool
  z : Bool
  c : Bool
  total_cycles : Int

/-- The dictionary returned by `VICII.save_state` (`vic2.py`): registers,
beam position, both collision latches and the sprite records — and nothing
else (`char_rom`, the pixel surface and the scanline buffer are not saved). -/
structure VicSave : Type where
  registers : Int → Int
  cycle : Int
  raster_line : Int
  sprite_sprite_collision : Int
  sprite_data_collision : Int
  sprites : Int → Sprite

/-- `VICII.save_state` (`vic2.py`). -/
def VICII.save_state (s : VICState) : VicSave :=
  { registers := s.registers
    cycle := s.cycle
    raster_line := s.raster_line
    sprite_sprite_collision := s.sprite_sprite_collision
    sprite_data_collision := s.sprite_data_collision
    sprites := s.sprites }

/-- `VICII.restore_state` (`vic2.py`): set the saved fields; each sprite is
re-created from its saved attribute dictionary (all attributes are saved, so
the rebuilt sprite equals the saved record). -/
def VICII.restore_state (s : VICState) (st : VicSave) : VICState :=
  let s := { s with
    registers := st.registers
    cycle := st.cycle
    raster_line := st.raster_line
    sprite_sprite_collision := st.sprite_sprite_collision
    sprite_data_collision := st.sprite_data_collision }
  let sprites := (List.range 8).foldl
    (fun f (i : Nat) => pySet f 8 (i : Int) (pyGet st.sprites 8 (i : Int))) s.sprites
  { s with sprites := sprites }

/-- `CIA.save_state` (`cia.py`): `vars(self)` minus the `cpu` back-reference,
i.e. every field of `CIAState`. -/
def CIA.save_state (s : CIAState) : CIAState := s

/-- `CIA.restore_state` (`cia.py`): `setattr` for every saved key. -/
def CIA.restore_state (_s : CIAState) (st : CIAState) : CIAState := st

/-- The dictionary returned by `SID.save_state` (`sid.py`): everything except
`sample_rate`. -/
structure SidSave : Type where
  registers : Int → Int
  volume : Float
  external_in : Float
  filter_cutoff : Int
  filter_resonance : Float
  filter_route : Int
  filter_mode : Int
  voice3_off : Bool
  low_pass_output : Float
  band_pass_output : Float
  voices : Int → Voice

/-- `SID.save_state` (`sid.py`). -/
def SID.save_state (s : SIDState) : SidSave :=
  { registers := s.registers
    volume := s.volume
    external_in := s.external_in
    filter_cutoff := s.filter_cutoff
    filter_resonance := s.filter_resonance
    filter_route := s.filter_route
    filter_mode := s.filter_mode
    voice3_off := s.voice3_off
    low_pass_output := s.low_pass_output
    band_pass_output := s.band_pass_output
    voices := s.voices }

/-- `SID.restore_state` (`sid.py`): `setattr` for every non-voice key, then
every attribute of each of the three voices. -/
def SID.restore_state (s : SIDState) (st : SidSave) : SIDState :=
  let s := { s with
    registers := st.registers
    volume := st.volume
    external_in := st.external_in
    filter_cutoff := st.filter_cutoff
    filter_resonance := st.filter_resonance
    filter_route := st.filter_route
    filter_mode := st.filter_mode
    voice3_off := st.voice3_off
    low_pass_output := st.low_pass_output
    band_pass_output := st.band_pass_output }
  let voices := (List.range 3).foldl
    (fun f (i : Nat) => pySet f 3 (i : Int) (pyGet st.voices 3 (i : Int))) s.voices
  { s with voices := voices }

/-- The rewind snapshot dictionary built by `CPU._capture_state_for_rewind`
(`cpu_6502.py`). -/
structure RewindState : Type where
  cpu : RewindCPU
  ram_changes : List (Int × Int)
  dirty_flags : List Int
  vic : VicSave
  sid : SidSave
  cia1 : CIAState
  cia2 : CIAState

/-- `CPU._capture_state_for_rewind` (`cpu_6502.py`): the CPU register file
and `total_cycles`, the RAM values at the dirty addresses, the dirty set
itself, and the four peripheral save dictionaries.  The function only reads
the machine.  (Note `cycles_remaining`, `irq_pending`, `nmi_pending`, the
processor port and the drive are **not** captured.) -/
def CPU.capture_state_for_rewind (m : Machine) : RewindState :=
  { cpu := { a := m.a, x := m.x, y := m.y, pc := m.pc, sp := m.sp,
             n := m.n, v := m.v, b := m.b, d := m.d, i := m.i, z := m.z, c := m.c,
             total_cycles := m.total_cycles }
    ram_changes := m.memory_dirty_flags.map (fun addr => (addr, pyGet m.ram 65536 addr))
    dirty_flags := m.memory_dirty_flags
    vic := VICII.save_state m.vic
    sid := SID.save_state m.sid
    cia1 := CIA.save_state m.cia1
    cia2 := CIA.save_state m.cia2 }

/-- `CPU._restore_state_from_dict` (`cpu_6502.py`): write back the CPU
registers and `total_cycles`, replay the captured RAM values (the
`int(addr)` key conversion is the identity on the already-integer keys
here), and restore the four peripherals.  `dirty_flags` is ignored and
`cycles_remaining`/`irq_pending`/`nmi_pending`/the processor port/the drive
are untouched. -/
def CPU.restore_state_from_dict (m : Machine) (state : RewindState) : Machine :=
  let m := { m with
    a := state.cpu.a, x := state.cpu.x, y := state.cpu.y,
    pc := state.cpu.pc, sp := state.cpu.sp,
    n := state.cpu.n, v := state.cpu.v, b := state.cpu.b, d := state.cpu.d,
    i := state.cpu.i, z := state.cpu.z, c := state.cpu.c,
    total_cycles := state.cpu.total_cycles }
  let m := { m with
    ram := state.ram_changes.foldl (fun r (p : Int × Int) => pySet r 65536 p.1 p.2) m.ram }
  let m := { m with vic := VICII.restore_state m.vic state.vic }
  let m := { m with sid := SID.restore_state m.sid state.sid }
  let m := { m with cia1 := CIA.restore_state m.cia1 state.cia1 }
  { m with cia2 := CIA.restore_state m.cia2 state.cia2 }

/-- The number of cycles the dispatch arm of `CPU.tick` (`cpu_6502.py`) adds
to `total_cycles` for the instruction fetched at `pc`: base cycles from the
cycle table plus one for a page crossing, and `0` for a countdown tick or an
unknown opcode (mirroring the accounting lines of `CPU.tick`). -/
def CPU.fetchExecCost (m : Machine) : Int :=
  let t115 := Bus.read m m.pc
  let m := t115.2
  if m.cycles_remaining > 0 then 0
  else
    let t116 := Bus.read m m.pc
    let command := t116.1
    let m := t116.2
    match CPU.commands command with
    | some (_, mode) =>
      let cycles := CPU.cyclesOf command
      let tPB :=
        if mode = Mode.ABSOLUTEX ∨ mode = Mode.ABSOLUTEY ∨ mode = Mode.INDIRECTY then
          CPU.page_boundary_crossed m mode
        else (false, m)
      let crossed := tPB.1
      if crossed then cycles + 1 else cycles
    | none => 0

/-- What one call of `CPU.tick` (`cpu_6502.py`) adds to `total_cycles`,
following `tick`'s own control flow: `0` on a KERNAL-trap-handled tick and
`CPU.fetchExecCost` on a tick that falls through to fetch/execute. -/
def CPU.instrCostAccounted (codec : PetsciiCodec) (m : Machine) : Int :=
  let m := CPU.tickInterruptPhase m
  if m.pc = 0xFFD5 then
    match CPU.handle_kernal_load codec m with
    | none => 0
    | some (true, _) => 0
    | some (false, m) =>
      if m.pc = 0xFFD8 then
        match CPU.handle_kernal_save codec m with
        | none => 0
        | some (true, _) => 0
        | some (false, m) => CPU.fetchExecCost m
      else CPU.fetchExecCost m
  else if m.pc = 0xFFD8 then
    match CPU.handle_kernal_save codec m with
    | none => 0
    | some (true, _) => 0
    | some (false, m) => CPU.fetchExecCost m
  else CPU.fetchExecCost m

/-- Bit `i` of the two's-complement representation of a Python integer. -/
def intTestBit (x : Int) (i : Nat) : Bool :=
  if 0 ≤ x then x.toNat.testBit i else !((-x - 1).toNat.testBit i)

/-- A sprite as `Sprite.__init__` builds it (`vic2.py`). -/
def initSprite (sprite_id : Int) : Sprite :=
  { id := sprite_id, x := 0, y := 0, color := 0, enabled := false, expand_y := false,
    expand_x := false, priority := false, is_multicolor := false, pointer := 0 }

/-- VIC-II state as `VICII.__init__` builds it (`vic2.py`), with an all-zero
character ROM. -/
def initVIC : VICState :=
  { registers := fun _ => 0, cycle := 0, raster_line := 0,
    screen := fun _ _ => (0, 0, 0), sprites := fun i => initSprite i,
    sprite_scanline_buffer := fun _ => (0, -1),
    sprite_sprite_collision := 0, sprite_data_collision := 0,
    char_rom := fun _ => 0 }

/-- CIA state as `CIA.__init__` builds it (`cia.py`). -/
def initCIA (nm : String) (is1 : Bool) : CIAState :=
  { name := nm, registers := fun _ => 0, is_cia1 := is1,
    keyboard_matrix := fun _ _ => 1, port_a_output := 0xFF, port_b_output := 0xFF,
    ddra := 0, ddrb := 0, joystick_state := 0xFF,
    timer_a_latch := 0, timer_b_latch := 0, timer_a_counter := 0, timer_b_counter := 0,
    cra := 0, crb := 0, icr := 0, ifr := 0, timer_a_started := false }

/-- A voice as `Voice.__init__` builds it (`sid.py`). -/
def initVoice : Voice :=
  { sample_rate := 44100, clock_rate := 985248, phase_accumulator := 0,
    noise_shift_register := 0x7FFFFF, freq := 0, pulse_width := 0, control := 0,
    attack_decay := 0, sustain_release := 0, rate_counter := 0,
    envelope_state := "RELEASE", envelope_counter := 0 }

/-- SID state as `SID.__init__` builds it (`sid.py`). -/
def initSID : SIDState :=
  { registers := fun _ => 0, sample_rate := 44100, voices := fun _ => initVoice,
    volume := 0.0, external_in := 0.0, filter_cutoff := 0, filter_resonance := 0,
    filter_route := 0, filter_mode := 0, voice3_off := false,
    low_pass_output := 0.0, band_pass_output := 0.0 }

/-- A freshly constructed machine (`CPU.__init__` in `cpu_6502.py` plus
`Bus.__init__` in `bus.py`): zeroed RAM and ROMs, default processor port
`0b00110111`, no cartridge, no disk. -/
def initMachine : Machine :=
  { a := 0, x := 0, y := 0, pc := 0x1000, sp := 0xFF,
    irq_pending := false, nmi_pending := false, cycles_remaining := 0, total_cycles := 0,
    breakpoints := [], n := false, v := false, b := false, d := false, i := false,
    z := false, c := false,
    ram := fun _ => 0, basic_rom := fun _ => 0, kernal_rom := fun _ => 0,
    processor_port := 0b00110111, memory_dirty_flags := [], cartridge := none,
    vic := initVIC, sid := initSID,
    cia1 := initCIA "CIA1" true, cia2 := initCIA "CIA2" false,
    drive := { disk_image := none, disk_name := "", directory := [] } }

/-- A trivial PETSCII codec for concrete runs that never consult it. -/
def trivialCodec : PetsciiCodec :=
  { decode := fun _ => "", encode := fun _ => [] }

/-- CIA2 configured so its timer A underflows on the next tick with the
interrupt mask bit set (timer started, counter at 0, ICR bit 0 enabled). -/
def cia2Underflow : CIAState :=
  { initCIA "CIA2" false with timer_a_started := true, timer_a_counter := 0, icr := 1 }

/-- The machine on which the C2 counterexample runs: CIA2 about to
underflow, the I flag set (so the IRQ is not serviced within the same tick)
and an instruction mid-execution (so no new instruction dispatches). -/
def c2Machine : Machine :=
  { initMachine with cia2 := cia2Underflow, i := true, cycles_remaining := 5 }

/-- A machine about to execute a taken BEQ: `z` set, `BEQ +5` at the reset
`pc`. -/
def c8Machine : Machine :=
  { initMachine with
    z := true,
    ram := pySet (pySet initMachine.ram 65536 0x1000 0xF0) 65536 0x1001 0x05 }

/-- Modelled from the spec: the per-instruction cost of the cycle-accounting
identity — base cycles plus taken-branch penalty plus page-crossing penalty
plus badline-stolen cycles. -/
def specInstructionCost (base branch_taken_penalty page_cross_penalty badline_stolen : Int) : Int :=
  base + branch_taken_penalty + page_cross_penalty + badline_stolen

/-- A machine with `A = $50`, `C` set and `$F0` as the immediate operand at
`pc + 1`. -/
def c9Machine : Machine :=
  { initMachine with
    a := 0x50, c := true,
    ram := pySet initMachine.ram 65536 0x1001 0xF0 }

/-- A VIC state with raster line `$101` (bit 8 set) and distinct stored
values in registers `$11` and `$12`. -/
def c7VIC : VICState :=
  { initVIC with
    raster_line := 0x101,
    registers := pySet (pySet initVIC.registers 47 0x11 0x0A) 47 0x12 0x05 }

/-- Modelled from the spec: reading `$D011` returns the stored register with
its high bit replaced by bit 8 of the current raster line. -/
def specVicReadD011 (s : VICState) : Int :=
  pyOr (pyAnd (pyGet s.registers 47 0x11) 0x7F) (pyAnd (pyShr s.raster_line 1) 0x80)

/-- Modelled from the spec: reading `$D012` returns bits 0–7 of the current
raster line. -/
def specVicReadD012 (s : VICState) : Int :=
  pyAnd s.raster_line 0xFF

/-- A machine about to service an IRQ with `sp = 0` (stack pointer at the
bottom of the stack page). -/
def c10Machine : Machine :=
  { initMachine with pc := 0xABCD, sp := 0 }

/-- A drive whose one-file image is a single final sector (`next_track = 0`,
`next_sector = 5`) holding 254 data bytes of value 7. -/
def c4Drive : Drive :=
  { disk_image := some (0 :: 5 :: List.replicate 254 7),
    disk_name := "TEST",
    directory := [("F", 1, 0)] }

/-- A codec whose decode always yields `"HELLO"`, for the LOAD-trap run. -/
def c3Codec : PetsciiCodec :=
  { decode := fun _ => "HELLO", encode := fun _ => [] }

/-- A drive holding `HELLO` at track 1 sector 0: a chained sector
(`next_track = 1`, `next_sector = 5`) whose three valid bytes under the
code's byte-count rule are the load address `$0801` and one byte `$AA`; the
chain ends at the empty out-of-image sector (1, 5). -/
def c3Drive : Drive :=
  { disk_image := some (1 :: 5 :: 0x01 :: 0x08 :: 0xAA :: List.replicate 251 0),
    disk_name := "TEST",
    directory := [("HELLO", 1, 0)] }

/-- A machine stopped at the LOAD trap address `$FFD5` with `c3Drive`
attached, filename length 5 at `$B8` and filename pointer `$0240` at
`$BB`/`$BC`. -/
def c3Machine : Machine :=
  { initMachine with
    pc := 0xFFD5, drive := c3Drive,
    ram := pySet (pySet (pySet initMachine.ram 65536 0xB8 5) 65536 0xBB 0x40) 65536 0xBC 0x02 }

/-- A machine with `JMP ($12FF)` operands at `pc + 1`: the pointer low byte
`$34` at `$12FF`, `$56` at `$1300` (the next sequential address) and `$78` at
`$1200` (where the 6502 page-wrap bug would read the high byte). -/
def c5Machine : Machine :=
  { initMachine with
    ram := pySet (pySet (pySet (pySet (pySet initMachine.ram 65536 0x1001 0xFF)
      65536 0x1002 0x12) 65536 0x12FF 0x34) 65536 0x1300 0x56) 65536 0x1200 0x78 }

/-- A machine about to execute a (non-trapping) BRK at `pc = $2000`. -/
def c6Machine : Machine :=
  { initMachine with pc := 0x2000 }

theorem pySet_pyGet {α : Type} (f : Int → α) (len i : Int) :
    pySet f len i (pyGet f len i) = f := by
  funext j
  simp only [pySet, pyGet]
  split
  · next h => rw [h]
  · rfl

theorem foldl_pySet_range_refl {α : Type} (len : Int) (f : Int → α) :
    ∀ (n : Nat), (List.range n).foldl
      (fun g (i : Nat) => pySet g len (i : Int) (pyGet f len (i : Int))) f = f := by
  intro n
  induction n with
  | zero => rfl
  | succ k ih =>
      rw [List.range_succ, List.foldl_append, ih]
      simp only [List.foldl_cons, List.foldl_nil, pySet_pyGet]

theorem foldl_writeback (f : Int → Int) :
    ∀ (l : List Int),
      (l.map (fun addr => (addr, pyGet f 65536 addr))).foldl
        (fun r (p : Int × Int) => pySet r 65536 p.1 p.2) f = f := by
  intro l
  induction l with
  | nil => rfl
  | cons a t ih => simpa [pySet_pyGet] using ih

theorem VICII.restore_save_vic (s : VICState) :
    VICII.restore_state s (VICII.save_state s) = s := by
  simp [VICII.restore_state, VICII.save_state, foldl_pySet_range_refl]

theorem SID.restore_save_sid (s : SIDState) :
    SID.restore_state s (SID.save_state s) = s := by
  simp [SID.restore_state, SID.save_state, foldl_pySet_range_refl]

/-- C1: Snapshot round-trip is the identity on the machine state: for every
machine, capturing a rewind snapshot (`_capture_state_for_rewind`) and
immediately restoring it (`_restore_state_from_dict`) yields exactly the
same machine — the captured pieces are written back to their captured
values, and the pieces missing from the snapshot (`cycles_remaining`,
`irq_pending`/`nmi_pending`, processor port, dirty set, drive, pixel
surface) are left untouched, so every piece of mutable execution state ends
up restored and the subsequent execution (pixel buffer and sample stream)
is identical to the uninterrupted run. -/
theorem C1_snapshot_roundtrip_identity (m : Machine) :
    CPU.restore_state_from_dict m (CPU.capture_state_for_rewind m) = m := by
  simp [CPU.restore_state_from_dict, CPU.capture_state_for_rewind,
        CIA.restore_state, CIA.save_state, VICII.restore_save_vic, SID.restore_save_sid,
        foldl_writeback]

theorem natBitAux_testBit (f : Bool → Bool → Bool) (hf : f false false = false) :
    ∀ (k a b i : Nat),
      (natBitAux f k a b).testBit i = if i < k then f (a.testBit i) (b.testBit i) else false := by
  intro k
  induction k with
  | zero => intro a b i; simp [natBitAux]
  | succ k ih =>
    intro a b i
    rw [natBitAux]
    cases i with
    | zero =>
      rcases hfc : f (decide (a % 2 = 1)) (decide (b % 2 = 1)) with _ | _ <;>
        simp [hfc, Nat.testBit_zero, Nat.add_mul_mod_self_left]
    | succ i =>
      have h1 : (1 + 2 * natBitAux f k (a / 2) (b / 2)) / 2 = natBitAux f k (a / 2) (b / 2) := by
        omega
      have h0 : (0 + 2 * natBitAux f k (a / 2) (b / 2)) / 2 = natBitAux f k (a / 2) (b / 2) := by
        omega
      rcases hfc : f (decide (a % 2 = 1)) (decide (b % 2 = 1)) with _ | _ <;>
        simp [hfc, Nat.testBit_add_one, h0, h1, ih, Nat.succ_lt_succ_iff]

theorem natAnd_testBit (a b i : Nat) :
    (natAnd a b).testBit i = if i < 128 then a.testBit i && b.testBit i else false :=
  natBitAux_testBit _ rfl 128 a b i

theorem natOr_testBit (a b i : Nat) :
    (natOr a b).testBit i = if i < 128 then a.testBit i || b.testBit i else false :=
  natBitAux_testBit _ rfl 128 a b i

theorem natLdiff_testBit (a b i : Nat) :
    (natLdiff a b).testBit i = if i < 128 then a.testBit i && !b.testBit i else false :=
  natBitAux_testBit _ rfl 128 a b i

theorem natAnd_two_pow (a : Nat) (i : Nat) (hi : i < 128) :
    natAnd a (2 ^ i) = if a.testBit i then 2 ^ i else 0 := by
  apply Nat.eq_of_testBit_eq
  intro j
  rw [natAnd_testBit]
  by_cases hji : j = i
  · subst hji
    rcases ha : a.testBit j with _ | _ <;> simp [Nat.testBit_two_pow, hi, ha]
  · by_cases hj : j < 128 <;>
      rcases ha : a.testBit i with _ | _ <;>
        simp [hj, ha, Nat.testBit_two_pow, Ne.symm hji, hji]

theorem natLdiff_two_pow (b : Nat) (i : Nat) (hi : i < 128) :
    natLdiff (2 ^ i) b = if b.testBit i then 0 else 2 ^ i := by
  apply Nat.eq_of_testBit_eq
  intro j
  rw [natLdiff_testBit]
  by_cases hji : j = i
  · subst hji
    rcases hb : b.testBit j with _ | _ <;> simp [Nat.testBit_two_pow, hi, hb]
  · by_cases hj : j < 128 <;>
      rcases hb : b.testBit i with _ | _ <;>
        simp [hj, hb, Nat.testBit_two_pow, Ne.symm hji, hji]

theorem int_two_pow_toNat (i : Nat) : ((2 : Int) ^ i).toNat = 2 ^ i := by
  rw [show ((2 : Int) ^ i) = ((2 ^ i : Nat) : Int) by push_cast; ring, Int.toNat_natCast]

theorem pyAnd_two_pow (x : Int) (i : Nat) (hi : i < 128) :
    pyAnd x (2 ^ i) = if intTestBit x i then 2 ^ i else 0 := by
  unfold pyAnd intTestBit
  by_cases hx : 0 ≤ x
  · rw [if_pos hx, if_pos (by positivity : (0:Int) ≤ 2 ^ i), if_pos hx, int_two_pow_toNat,
      natAnd_two_pow _ _ hi]
    rcases x.toNat.testBit i with _ | _ <;> simp <;> push_cast <;> ring
  · rw [if_neg hx, if_pos (by positivity : (0:Int) ≤ 2 ^ i), if_neg hx, int_two_pow_toNat,
      natLdiff_two_pow _ _ hi]
    rcases (-x - 1).toNat.testBit i with _ | _ <;> simp <;> push_cast <;> ring

theorem pyOr_two_pow_testBit (x : Int) (i j : Nat) (hi : i < 128) (hj : j < 128) :
    intTestBit (pyOr x (2 ^ i)) j = (intTestBit x j || decide (i = j)) := by
  unfold pyOr intTestBit
  by_cases hx : 0 ≤ x
  · rw [if_pos hx, if_pos (by positivity : (0:Int) ≤ 2 ^ i)]
    have hnn : (0:Int) ≤ ((natOr x.toNat ((2:Int) ^ i).toNat : Nat) : Int) := Int.ofNat_nonneg _
    rw [if_pos hx, if_pos hnn, Int.toNat_natCast, int_two_pow_toNat,
      natOr_testBit, if_pos hj, Nat.testBit_two_pow]
  · rw [if_neg hx, if_pos (by positivity : (0:Int) ≤ 2 ^ i)]
    have hneg : ¬ (0:Int) ≤ -((natLdiff ((-x - 1).toNat) (((2:Int) ^ i).toNat) : Nat) : Int) - 1 := by
      have h := Int.ofNat_nonneg (natLdiff ((-x - 1).toNat) (((2:Int) ^ i).toNat))
      omega
    rw [if_neg hx, if_neg hneg]
    have harg : (-(-((natLdiff ((-x - 1).toNat) (((2:Int) ^ i).toNat) : Nat) : Int) - 1) - 1).toNat
        = natLdiff ((-x - 1).toNat) (((2:Int) ^ i).toNat) := by
      have h := Int.ofNat_nonneg (natLdiff ((-x - 1).toNat) (((2:Int) ^ i).toNat))
      omega
    rw [harg, int_two_pow_toNat, natLdiff_testBit, if_pos hj, Nat.testBit_two_pow]
    rcases hb : (-x - 1).toNat.testBit j with _ | _ <;> simp [hb]

theorem pyAnd_pyOr_same_bit (x : Int) (i : Nat) (hi : i < 128) :
    pyAnd (pyOr x (2 ^ i)) (2 ^ i) = 2 ^ i := by
  rw [pyAnd_two_pow _ _ hi, pyOr_two_pow_testBit x i i hi hi]
  simp

theorem pyAnd_pyOr_other_bit (x : Int) (i j : Nat) (hi : i < 128) (hj : j < 128)
    (hij : i ≠ j) : pyAnd (pyOr x (2 ^ j)) (2 ^ i) = pyAnd x (2 ^ i) := by
  rw [pyAnd_two_pow _ _ hi, pyAnd_two_pow _ _ hi,
    pyOr_two_pow_testBit x j i hj hi]
  simp [Ne.symm hij, hij]

/-- C2 counterexample: the claim says the interrupt raised by CIA2's timer-A
underflow is an NMI; on the code, one full CPU tick of `c2Machine` leaves
`nmi_pending` false while setting `irq_pending` and the CIA2 interrupt
flags — `CIA.tick` hard-codes `cpu.irq()` for both chips. -/
theorem C2_counterexample :
    (CPU.tick trivialCodec c2Machine).map
      (fun m' => (m'.nmi_pending, m'.irq_pending, m'.cia2.ifr)) =
    some (false, true, 0x81) := by
  decide

/-- C2 (amended): for every started CIA timer A, a tick that underflows the
counter sets bit 0 of the ifr unconditionally, and if mask bit 0 is set it
also sets bit 7 of the ifr and raises an interrupt on the CPU — but the
interrupt raised is an IRQ for **both** CIA1 and CIA2 (`CIA.tick` calls
`cpu.irq()` unconditionally; the returned flag of the embedded `CIA.tick`
records exactly that call, which `CPU.tick` turns into `irq_pending`, never
`nmi_pending`). -/
theorem C2_amended_timer_a_underflow_raises_irq (cia : CIAState)
    (h1 : cia.timer_a_started = true) (h2 : cia.timer_a_counter - 1 < 0) :
    pyAnd (CIA.tick cia).1.ifr 1 = 1 ∧
      (pyAnd cia.icr 1 = 1 →
        pyAnd (CIA.tick cia).1.ifr 0x80 = 0x80 ∧ (CIA.tick cia).2 = true) := by
  have hbit0m : pyAnd (pyOr cia.ifr 1) 1 = 1 := by
    have e2 := pyAnd_pyOr_same_bit cia.ifr 0 (by norm_num)
    norm_num at e2
    exact e2
  have hbit0 : pyAnd (pyOr (pyOr cia.ifr 1) 0x80) 1 = 1 := by
    have e1 := pyAnd_pyOr_other_bit (pyOr cia.ifr (2 ^ 0)) 0 7
      (by norm_num) (by norm_num) (by omega)
    have e2 := pyAnd_pyOr_same_bit cia.ifr 0 (by norm_num)
    norm_num at e1 e2
    rw [e1, e2]
  have hbit7 : pyAnd (pyOr (pyOr cia.ifr 1) 0x80) 0x80 = 0x80 := by
    have e1 := pyAnd_pyOr_same_bit (pyOr cia.ifr 1) 7 (by norm_num)
    norm_num at e1
    exact e1
  by_cases h3 : pyAnd cia.icr 1 = 1
  · have htr : pyTruthy (pyAnd cia.icr 0b00000001) = true := by
      rw [show (0b00000001 : Int) = 1 from rfl, h3]; rfl
    simp only [CIA.tick, h1, if_pos h2, htr, ite_true, if_true]
    split <;> exact ⟨hbit0, fun _ => ⟨hbit7, rfl⟩⟩
  · have e := pyAnd_two_pow cia.icr 0 (by norm_num)
    norm_num at e
    have h0 : pyAnd cia.icr 1 = 0 := by
      by_cases hb : intTestBit cia.icr 0
      · exact absurd (by rw [e, if_pos hb]) h3
      · rw [e, if_neg hb]
    have htr : pyTruthy (pyAnd cia.icr 0b00000001) = false := by
      rw [show (0b00000001 : Int) = 1 from rfl, h0]; rfl
    simp only [CIA.tick, h1, if_pos h2, htr, ite_true, if_true, Bool.false_eq_true,
      ite_false, if_false]
    split <;> exact ⟨hbit0m, fun hcon => absurd hcon h3⟩

/-- C2 amended-claim witness at a concrete CIA with the mask bit set. -/
theorem C2_amended_witness :
    cia2Underflow.timer_a_started = true ∧ cia2Underflow.timer_a_counter - 1 < 0 ∧
      (pyAnd (CIA.tick cia2Underflow).1.ifr 1 = 1 ∧
        (pyAnd cia2Underflow.icr 1 = 1 →
          pyAnd (CIA.tick cia2Underflow).1.ifr 0x80 = 0x80 ∧
          (CIA.tick cia2Underflow).2 = true)) :=
  ⟨by decide, by decide,
    C2_amended_timer_a_underflow_raises_irq cia2Underflow (by decide) (by decide)⟩

theorem Bus.read_total (m : Machine) (a : Int) :
    (Bus.read m a).2.total_cycles = m.total_cycles := by
  simp only [Bus.read]
  (repeat' split) <;> rfl

theorem Bus.write_total (m : Machine) (a d : Int) :
    (Bus.write m a d).total_cycles = m.total_cycles := by
  rw [Bus.write.eq_def]
  by_cases h : a = 1
  · rw [if_pos h]
  · rw [if_neg h]
    dsimp only
    (repeat' split) <;> rfl

theorem Bus.read_ram (m : Machine) (a : Int) :
    (Bus.read m a).2.ram = m.ram := by
  simp only [Bus.read]
  (repeat' split) <;> rfl

theorem CPU.set_nz_total (m : Machine) (v : Int) :
    (CPU.set_nz m v).total_cycles = m.total_cycles := rfl

theorem CPU.get_location_by_mode_total (m : Machine) (mode : Mode) :
    (CPU.get_location_by_mode m mode).2.total_cycles = m.total_cycles := by
  cases mode <;> simp [CPU.get_location_by_mode, Bus.read_total]

theorem CPU.page_boundary_crossed_total (m : Machine) (mode : Mode) :
    (CPU.page_boundary_crossed m mode).2.total_cycles = m.total_cycles := by
  cases mode <;> simp [CPU.page_boundary_crossed, Bus.read_total]

theorem foldl_machine_total {α : Type} (f : Machine → α → Machine)
    (hf : ∀ m x, (f m x).total_cycles = m.total_cycles) :
    ∀ (l : List α) (m : Machine), (l.foldl f m).total_cycles = m.total_cycles := by
  intro l
  induction l with
  | nil => intro m; rfl
  | cons a t ih => intro m; rw [List.foldl_cons, ih, hf]

theorem foldl_pair_total {α β : Type} (f : β × Machine → α → β × Machine)
    (hf : ∀ acc x, ((f acc x).2).total_cycles = acc.2.total_cycles) :
    ∀ (l : List α) (acc : β × Machine), ((l.foldl f acc).2).total_cycles = acc.2.total_cycles := by
  intro l
  induction l with
  | nil => intro acc; rfl
  | cons a t ih => intro acc; rw [List.foldl_cons, ih, hf]

theorem CPU.PHP_total (m : Machine) (mode : Mode) :
    (CPU.PHP m mode).total_cycles = m.total_cycles := by
  simp [CPU.PHP, Bus.write_total]

theorem CPU.PHA_total (m : Machine) (mode : Mode) :
    (CPU.PHA m mode).total_cycles = m.total_cycles := by
  simp [CPU.PHA, Bus.write_total]

theorem CPU.PLA_total (m : Machine) (mode : Mode) :
    (CPU.PLA m mode).total_cycles = m.total_cycles := by
  simp [CPU.PLA, CPU.set_nz, Bus.read_total]

theorem CPU.PLP_total (m : Machine) (mode : Mode) :
    (CPU.PLP m mode).total_cycles = m.total_cycles := by
  simp [CPU.PLP, Bus.read_total]

theorem CPU.BIT_total (m : Machine) (mode : Mode) :
    (CPU.BIT m mode).total_cycles = m.total_cycles := by
  simp [CPU.BIT, Bus.read_total, CPU.get_location_by_mode_total]

theorem CPU.LDA_total (m : Machine) (mode : Mode) :
    (CPU.LDA m mode).total_cycles = m.total_cycles := by
  simp [CPU.LDA, CPU.set_nz, Bus.read_total, CPU.get_location_by_mode_total]

theorem CPU.LDX_total (m : Machine) (mode : Mode) :
    (CPU.LDX m mode).total_cycles = m.total_cycles := by
  simp [CPU.LDX, CPU.set_nz, Bus.read_total, CPU.get_location_by_mode_total]

theorem CPU.LDY_total (m : Machine) (mode : Mode) :
    (CPU.LDY m mode).total_cycles = m.total_cycles := by
  simp [CPU.LDY, CPU.set_nz, Bus.read_total, CPU.get_location_by_mode_total]

theorem CPU.STA_total (m : Machine) (mode : Mode) :
    (CPU.STA m mode).total_cycles = m.total_cycles := by
  simp [CPU.STA, Bus.write_total, CPU.get_location_by_mode_total]

theorem CPU.STX_total (m : Machine) (mode : Mode) :
    (CPU.STX m mode).total_cycles = m.total_cycles := by
  simp [CPU.STX, Bus.write_total, CPU.get_location_by_mode_total]

theorem CPU.STY_total (m : Machine) (mode : Mode) :
    (CPU.STY m mode).total_cycles = m.total_cycles := by
  simp [CPU.STY, Bus.write_total, CPU.get_location_by_mode_total]

theorem CPU.INC_total (m : Machine) (mode : Mode) :
    (CPU.INC m mode).total_cycles = m.total_cycles := by
  simp [CPU.INC, CPU.set_nz, Bus.read_total, Bus.write_total, CPU.get_location_by_mode_total]

theorem CPU.DEC_total (m : Machine) (mode : Mode) :
    (CPU.DEC m mode).total_cycles = m.total_cycles := by
  simp [CPU.DEC, CPU.set_nz, Bus.read_total, Bus.write_total, CPU.get_location_by_mode_total]

theorem CPU.SLO_total (m : Machine) (mode : Mode) :
    (CPU.SLO m mode).total_cycles = m.total_cycles := by
  simp [CPU.SLO, CPU.set_nz, Bus.read_total, Bus.write_total, CPU.get_location_by_mode_total]

theorem CPU.RLA_total (m : Machine) (mode : Mode) :
    (CPU.RLA m mode).total_cycles = m.total_cycles := by
  simp [CPU.RLA, CPU.set_nz, Bus.read_total, Bus.write_total, CPU.get_location_by_mode_total]

theorem CPU.SAX_total (m : Machine) (mode : Mode) :
    (CPU.SAX m mode).total_cycles = m.total_cycles := by
  simp [CPU.SAX, Bus.write_total, CPU.get_location_by_mode_total]

theorem CPU.LAX_total (m : Machine) (mode : Mode) :
    (CPU.LAX m mode).total_cycles = m.total_cycles := by
  simp [CPU.LAX, CPU.set_nz, Bus.read_total, CPU.get_location_by_mode_total]

theorem CPU.DCP_total (m : Machine) (mode : Mode) :
    (CPU.DCP m mode).total_cycles = m.total_cycles := by
  simp [CPU.DCP, CPU.set_nz, Bus.read_total, Bus.write_total, CPU.get_location_by_mode_total]

theorem CPU.INX_total (m : Machine) (mode : Mode) :
    (CPU.INX m mode).total_cycles = m.total_cycles := by
  simp [CPU.INX, CPU.set_nz]

theorem CPU.INY_total (m : Machine) (mode : Mode) :
    (CPU.INY m mode).total_cycles = m.total_cycles := by
  simp [CPU.INY, CPU.set_nz]

theorem CPU.DEX_total (m : Machine) (mode : Mode) :
    (CPU.DEX m mode).total_cycles = m.total_cycles := by
  simp [CPU.DEX, CPU.set_nz]

theorem CPU.DEY_total (m : Machine) (mode : Mode) :
    (CPU.DEY m mode).total_cycles = m.total_cycles := by
  simp [CPU.DEY, CPU.set_nz]

theorem CPU.TAX_total (m : Machine) (mode : Mode) :
    (CPU.TAX m mode).total_cycles = m.total_cycles := by
  simp [CPU.TAX, CPU.set_nz]

theorem CPU.TXA_total (m : Machine) (mode : Mode) :
    (CPU.TXA m mode).total_cycles = m.total_cycles := by
  simp [CPU.TXA, CPU.set_nz]

theorem CPU.TAY_total (m : Machine) (mode : Mode) :
    (CPU.TAY m mode).total_cycles = m.total_cycles := by
  simp [CPU.TAY, CPU.set_nz]

theorem CPU.TYA_total (m : Machine) (mode : Mode) :
    (CPU.TYA m mode).total_cycles = m.total_cycles := by
  simp [CPU.TYA, CPU.set_nz]

theorem CPU.CLC_total (m : Machine) (mode : Mode) :
    (CPU.CLC m mode).total_cycles = m.total_cycles := by
  simp [CPU.CLC]

theorem CPU.SEC_total (m : Machine) (mode : Mode) :
    (CPU.SEC m mode).total_cycles = m.total_cycles := by
  simp [CPU.SEC]

theorem CPU.CLI_total (m : Machine) (mode : Mode) :
    (CPU.CLI m mode).total_cycles = m.total_cycles := by
  simp [CPU.CLI]

theorem CPU.SEI_total (m : Machine) (mode : Mode) :
    (CPU.SEI m mode).total_cycles = m.total_cycles := by
  simp [CPU.SEI]

theorem CPU.CLV_total (m : Machine) (mode : Mode) :
    (CPU.CLV m mode).total_cycles = m.total_cycles := by
  simp [CPU.CLV]

theorem CPU.CLD_total (m : Machine) (mode : Mode) :
    (CPU.CLD m mode).total_cycles = m.total_cycles := by
  simp [CPU.CLD]

theorem CPU.SED_total (m : Machine) (mode : Mode) :
    (CPU.SED m mode).total_cycles = m.total_cycles := by
  simp [CPU.SED]

theorem CPU.JMP_total (m : Machine) (mode : Mode) :
    (CPU.JMP m mode).total_cycles = m.total_cycles := by
  simp [CPU.JMP, CPU.get_location_by_mode_total]

theorem CPU.CMP_total (m : Machine) (mode : Mode) :
    (CPU.CMP m mode).total_cycles = m.total_cycles := by
  simp [CPU.CMP, CPU.set_nz, Bus.read_total, CPU.get_location_by_mode_total]

theorem CPU.TXS_total (m : Machine) (mode : Mode) :
    (CPU.TXS m mode).total_cycles = m.total_cycles := by
  simp [CPU.TXS]

theorem CPU.TSX_total (m : Machine) (mode : Mode) :
    (CPU.TSX m mode).total_cycles = m.total_cycles := by
  simp [CPU.TSX, CPU.set_nz]

theorem CPU.JSR_total (m : Machine) (mode : Mode) :
    (CPU.JSR m mode).total_cycles = m.total_cycles := by
  simp [CPU.JSR, Bus.write_total, CPU.get_location_by_mode_total]

theorem CPU.NOP_total (m : Machine) (mode : Mode) :
    (CPU.NOP m mode).total_cycles = m.total_cycles := by
  simp [CPU.NOP]

theorem CPU.ADC_total (m : Machine) (mode : Mode) :
    (CPU.ADC m mode).total_cycles = m.total_cycles := by
  unfold CPU.ADC; (repeat' split) <;>
    simp [CPU.set_nz, Bus.read_total, CPU.get_location_by_mode_total,
      apply_ite Machine.total_cycles]

theorem CPU.SBC_total (m : Machine) (mode : Mode) :
    (CPU.SBC m mode).total_cycles = m.total_cycles := by
  unfold CPU.SBC; (repeat' split) <;>
    simp [CPU.set_nz, Bus.read_total, CPU.get_location_by_mode_total,
      apply_ite Machine.total_cycles]

theorem CPU.AND_total (m : Machine) (mode : Mode) :
    (CPU.AND m mode).total_cycles = m.total_cycles := by
  simp [CPU.AND, CPU.set_nz, Bus.read_total, CPU.get_location_by_mode_total]

theorem CPU.ORA_total (m : Machine) (mode : Mode) :
    (CPU.ORA m mode).total_cycles = m.total_cycles := by
  simp [CPU.ORA, CPU.set_nz, Bus.read_total, CPU.get_location_by_mode_total]

theorem CPU.EOR_total (m : Machine) (mode : Mode) :
    (CPU.EOR m mode).total_cycles = m.total_cycles := by
  simp [CPU.EOR, CPU.set_nz, Bus.read_total, CPU.get_location_by_mode_total]

theorem CPU.ASL_total (m : Machine) (mode : Mode) :
    (CPU.ASL m mode).total_cycles = m.total_cycles := by
  unfold CPU.ASL; (repeat' split) <;>
    simp [CPU.set_nz, Bus.read_total, Bus.write_total, CPU.get_location_by_mode_total,
      apply_ite Machine.total_cycles]

theorem CPU.LSR_total (m : Machine) (mode : Mode) :
    (CPU.LSR m mode).total_cycles = m.total_cycles := by
  unfold CPU.LSR; (repeat' split) <;>
    simp [CPU.set_nz, Bus.read_total, Bus.write_total, CPU.get_location_by_mode_total,
      apply_ite Machine.total_cycles]

theorem CPU.ROL_total (m : Machine) (mode : Mode) :
    (CPU.ROL m mode).total_cycles = m.total_cycles := by
  unfold CPU.ROL; (repeat' split) <;>
    simp [CPU.set_nz, Bus.read_total, Bus.write_total, CPU.get_location_by_mode_total,
      apply_ite Machine.total_cycles]

theorem CPU.ROR_total (m : Machine) (mode : Mode) :
    (CPU.ROR m mode).total_cycles = m.total_cycles := by
  unfold CPU.ROR; (repeat' split) <;>
    simp [CPU.set_nz, Bus.read_total, Bus.write_total, CPU.get_location_by_mode_total,
      apply_ite Machine.total_cycles]

theorem CPU.compare_total (m : Machine) (mode : Mode) (rv : Int) :
    (CPU.compare_ m mode rv).total_cycles = m.total_cycles := by
  simp [CPU.compare_, CPU.set_nz, Bus.read_total, CPU.get_location_by_mode_total]

theorem CPU.CPX_total (m : Machine) (mode : Mode) :
    (CPU.CPX m mode).total_cycles = m.total_cycles := by
  simp [CPU.CPX, CPU.compare_total]

theorem CPU.CPY_total (m : Machine) (mode : Mode) :
    (CPU.CPY m mode).total_cycles = m.total_cycles := by
  simp [CPU.CPY, CPU.compare_total]

theorem CPU.branch_total (m : Machine) (cond : Bool) :
    (CPU.branch_ m cond).total_cycles = m.total_cycles := by
  unfold CPU.branch_
  (repeat' split) <;>
    simp [Bus.read_total, CPU.get_location_by_mode_total, apply_ite Machine.total_cycles]

theorem CPU.BMI_total (m : Machine) (mode : Mode) :
    (CPU.BMI m mode).total_cycles = m.total_cycles := CPU.branch_total m _

theorem CPU.BPL_total (m : Machine) (mode : Mode) :
    (CPU.BPL m mode).total_cycles = m.total_cycles := CPU.branch_total m _

theorem CPU.BVC_total (m : Machine) (mode : Mode) :
    (CPU.BVC m mode).total_cycles = m.total_cycles := CPU.branch_total m _

theorem CPU.BVS_total (m : Machine) (mode : Mode) :
    (CPU.BVS m mode).total_cycles = m.total_cycles := CPU.branch_total m _

theorem CPU.BCC_total (m : Machine) (mode : Mode) :
    (CPU.BCC m mode).total_cycles = m.total_cycles := CPU.branch_total m _

theorem CPU.BCS_total (m : Machine) (mode : Mode) :
    (CPU.BCS m mode).total_cycles = m.total_cycles := CPU.branch_total m _

theorem CPU.BNE_total (m : Machine) (mode : Mode) :
    (CPU.BNE m mode).total_cycles = m.total_cycles := CPU.branch_total m _

theorem CPU.BEQ_total (m : Machine) (mode : Mode) :
    (CPU.BEQ m mode).total_cycles = m.total_cycles := CPU.branch_total m _

theorem CPU.RTS_total (m : Machine) (mode : Mode) :
    (CPU.RTS m mode).total_cycles = m.total_cycles := by
  simp [CPU.RTS, CPU.PLA_total]

theorem CPU.RTI_total (m : Machine) (mode : Mode) :
    (CPU.RTI m mode).total_cycles = m.total_cycles := by
  simp [CPU.RTI, CPU.RTS_total, CPU.PLP_total]

theorem CPU.handle_irq_total (m : Machine) :
    (CPU.handle_irq m).total_cycles = m.total_cycles := by
  simp [CPU.handle_irq, CPU.PHP_total, Bus.read_total, Bus.write_total]

theorem CPU.handle_nmi_total (m : Machine) :
    (CPU.handle_nmi m).total_cycles = m.total_cycles := by
  simp [CPU.handle_nmi, CPU.PHP_total, Bus.read_total, Bus.write_total]

theorem CPU.handle_kernal_load_total (codec : PetsciiCodec) (m : Machine) (b : Bool)
    (m' : Machine) (h : CPU.handle_kernal_load codec m = some (b, m')) :
    m'.total_cycles = m.total_cycles := by
  unfold CPU.handle_kernal_load at h
  split at h
  · simp only [Option.some.injEq, Prod.mk.injEq] at h
    exact h.2 ▸ rfl
  · dsimp only at h
    split at h
    case h_1 => exact absurd h (by simp)
    case h_2 fd heq =>
      split at h
      case h_1 b0 b1 rest =>
        simp only [Option.some.injEq, Prod.mk.injEq] at h
        obtain ⟨hb, hm⟩ := h
        subst hm
        dsimp only
        rw [foldl_machine_total]
        · rw [foldl_pair_total]
          · simp [Bus.read_total]
          · intro acc x
            simp [Bus.read_total]
        · intro mm iv
          exact Bus.write_total _ _ _
      case h_2 => exact absurd h (by simp)
      case h_3 =>
        simp only [Option.some.injEq, Prod.mk.injEq] at h
        obtain ⟨hb, hm⟩ := h
        subst hm
        dsimp only
        rw [foldl_pair_total]
        · simp [Bus.read_total]
        · intro acc x
          simp [Bus.read_total]
      case h_4 =>
        simp only [Option.some.injEq, Prod.mk.injEq] at h
        obtain ⟨hb, hm⟩ := h
        subst hm
        dsimp only
        rw [foldl_pair_total]
        · simp [Bus.read_total]
        · intro acc x
          simp [Bus.read_total]

theorem CPU.handle_kernal_save_total (codec : PetsciiCodec) (m : Machine) (b : Bool)
    (m' : Machine) (h : CPU.handle_kernal_save codec m = some (b, m')) :
    m'.total_cycles = m.total_cycles := by
  unfold CPU.handle_kernal_save at h
  split at h
  · simp only [Option.some.injEq, Prod.mk.injEq] at h
    exact h.2 ▸ rfl
  · dsimp only at h
    split at h
    case h_1 => exact absurd h (by simp)
    case h_2 d ok heq =>
      simp only [Option.some.injEq, Prod.mk.injEq] at h
      obtain ⟨hb, hm⟩ := h
      subst hm
      dsimp only
      split <;>
      · dsimp only
        rw [foldl_pair_total]
        · simp only [Bus.read_total]
          rw [foldl_pair_total]
          · simp [Bus.read_total]
          · intro acc x
            simp [Bus.read_total]
        · intro acc x
          simp [Bus.read_total]

theorem CPU.BRK_total (codec : PetsciiCodec) (m : Machine) (mode : Mode) (m' : Machine)
    (h : CPU.BRK codec m mode = some m') :
    m'.total_cycles = m.total_cycles := by
  unfold CPU.BRK at h
  split at h
  · split at h
    case h_1 => exact absurd h (by simp)
    case h_2 mk heq =>
      simp only [Option.some.injEq] at h
      subst h
      exact CPU.handle_kernal_load_total codec m true mk heq
    case h_3 mk heq =>
      simp only [Option.some.injEq] at h
      subst h
      dsimp only
      rw [show (∀ mm : Machine, ({ mm with b := true } : Machine).total_cycles
        = mm.total_cycles) from fun _ => rfl]
      rw [CPU.handle_irq_total]
      exact CPU.handle_kernal_load_total codec m false mk heq
  · simp only [Option.some.injEq] at h
    subst h
    dsimp only
    rw [show (∀ mm : Machine, ({ mm with b := true } : Machine).total_cycles
      = mm.total_cycles) from fun _ => rfl]
    rw [CPU.handle_irq_total]

theorem CPU.execHandler_total (codec : PetsciiCodec) (ins : Instr) (mode : Mode)
    (m m' : Machine) (h : CPU.execHandler codec ins mode m = some m') :
    m'.total_cycles = m.total_cycles := by
  cases ins <;> simp only [CPU.execHandler, Option.some.injEq] at h
  case BRK => exact CPU.BRK_total codec m mode m' h
  case RTI => exact h ▸ CPU.RTI_total m mode
  case LDA => exact h ▸ CPU.LDA_total m mode
  case LDX => exact h ▸ CPU.LDX_total m mode
  case LDY => exact h ▸ CPU.LDY_total m mode
  case STA => exact h ▸ CPU.STA_total m mode
  case STX => exact h ▸ CPU.STX_total m mode
  case STY => exact h ▸ CPU.STY_total m mode
  case INX => exact h ▸ CPU.INX_total m mode
  case INY => exact h ▸ CPU.INY_total m mode
  case DEX => exact h ▸ CPU.DEX_total m mode
  case DEY => exact h ▸ CPU.DEY_total m mode
  case TAX => exact h ▸ CPU.TAX_total m mode
  case TXA => exact h ▸ CPU.TXA_total m mode
  case TAY => exact h ▸ CPU.TAY_total m mode
  case TYA => exact h ▸ CPU.TYA_total m mode
  case CLC => exact h ▸ CPU.CLC_total m mode
  case SEC => exact h ▸ CPU.SEC_total m mode
  case CLI => exact h ▸ CPU.CLI_total m mode
  case SEI => exact h ▸ CPU.SEI_total m mode
  case CLV => exact h ▸ CPU.CLV_total m mode
  case CLD => exact h ▸ CPU.CLD_total m mode
  case SED => exact h ▸ CPU.SED_total m mode
  case JMP => exact h ▸ CPU.JMP_total m mode
  case CMP => exact h ▸ CPU.CMP_total m mode
  case CPX => exact h ▸ CPU.CPX_total m mode
  case CPY => exact h ▸ CPU.CPY_total m mode
  case BPL => exact h ▸ CPU.BPL_total m mode
  case BMI => exact h ▸ CPU.BMI_total m mode
  case BVC => exact h ▸ CPU.BVC_total m mode
  case BVS => exact h ▸ CPU.BVS_total m mode
  case BCC => exact h ▸ CPU.BCC_total m mode
  case BCS => exact h ▸ CPU.BCS_total m mode
  case BNE => exact h ▸ CPU.BNE_total m mode
  case BEQ => exact h ▸ CPU.BEQ_total m mode
  case TXS => exact h ▸ CPU.TXS_total m mode
  case TSX => exact h ▸ CPU.TSX_total m mode
  case PHA => exact h ▸ CPU.PHA_total m mode
  case PLA => exact h ▸ CPU.PLA_total m mode
  case PHP => exact h ▸ CPU.PHP_total m mode
  case PLP => exact h ▸ CPU.PLP_total m mode
  case JSR => exact h ▸ CPU.JSR_total m mode
  case RTS => exact h ▸ CPU.RTS_total m mode
  case ADC => exact h ▸ CPU.ADC_total m mode
  case SBC => exact h ▸ CPU.SBC_total m mode
  case AND => exact h ▸ CPU.AND_total m mode
  case ORA => exact h ▸ CPU.ORA_total m mode
  case EOR => exact h ▸ CPU.EOR_total m mode
  case NOP => exact h ▸ CPU.NOP_total m mode
  case ASL => exact h ▸ CPU.ASL_total m mode
  case LSR => exact h ▸ CPU.LSR_total m mode
  case ROL => exact h ▸ CPU.ROL_total m mode
  case ROR => exact h ▸ CPU.ROR_total m mode
  case BIT => exact h ▸ CPU.BIT_total m mode
  case INC => exact h ▸ CPU.INC_total m mode
  case DEC => exact h ▸ CPU.DEC_total m mode
  case SLO => exact h ▸ CPU.SLO_total m mode
  case RLA => exact h ▸ CPU.RLA_total m mode
  case SAX => exact h ▸ CPU.SAX_total m mode
  case LAX => exact h ▸ CPU.LAX_total m mode
  case DCP => exact h ▸ CPU.DCP_total m mode

theorem VICII.trigger_interrupt_total (m : Machine) (flag : Int) :
    (VICII.trigger_interrupt m flag).total_cycles = m.total_cycles := by
  unfold VICII.trigger_interrupt
  dsimp only
  split <;> rfl

theorem VICII.render_pixel_background_total (vmp lx ly bg : Int) (m : Machine) :
    (VICII.render_pixel_background vmp lx ly bg m).2.2.total_cycles = m.total_cycles := by
  unfold VICII.render_pixel_background
  dsimp only
  (repeat' split) <;> simp [Bus.read_total]

theorem VICII.render_pixel_sprite_overlay_total (x fb : Int) (fg : Bool) (m : Machine) :
    (VICII.render_pixel_sprite_overlay x fb fg m).2.total_cycles = m.total_cycles := by
  unfold VICII.render_pixel_sprite_overlay
  dsimp only
  (repeat' split) <;> simp [VICII.trigger_interrupt_total]

theorem VICII.render_pixel_total (m : Machine) :
    (VICII.render_pixel m).total_cycles = m.total_cycles := by
  unfold VICII.render_pixel
  dsimp only
  split
  · rfl
  · rw [VICII.render_pixel_sprite_overlay_total, VICII.render_pixel_background_total]

theorem VICII.sprite_put_pixel_total (c s : Int) (m : Machine) (x : Int) :
    (VICII.sprite_put_pixel c s m x).total_cycles = m.total_cycles := by
  unfold VICII.sprite_put_pixel
  dsimp only
  (repeat' split) <;> simp [VICII.trigger_interrupt_total]

theorem VICII.sprite_render_mc_pixel_total (sp : Sprite) (rb : Nat → Int) (mc1 mc2 : Int)
    (m : Machine) (i : Nat) :
    (VICII.sprite_render_mc_pixel sp rb mc1 mc2 m i).total_cycles = m.total_cycles := by
  unfold VICII.sprite_render_mc_pixel
  dsimp only
  split
  · rfl
  · rw [foldl_machine_total]
    intro mm p
    exact VICII.sprite_put_pixel_total _ _ _ _

theorem VICII.sprite_render_hires_pixel_total (sp : Sprite) (rb : Nat → Int)
    (m : Machine) (i : Nat) :
    (VICII.sprite_render_hires_pixel sp rb m i).total_cycles = m.total_cycles := by
  unfold VICII.sprite_render_hires_pixel
  dsimp only
  split
  · rw [foldl_machine_total]
    intro mm p
    exact VICII.sprite_put_pixel_total _ _ _ _
  · rfl

theorem VICII.render_one_sprite_total (spb : Int) (m : Machine) (idx : Nat) :
    (VICII.render_one_sprite spb m idx).total_cycles = m.total_cycles := by
  unfold VICII.render_one_sprite
  dsimp only
  (repeat' split)
  all_goals try rfl
  all_goals
    (rw [foldl_machine_total]
     · simp [Bus.read_total]
     · intro mm i
       first
         | exact VICII.sprite_render_mc_pixel_total _ _ _ _ _ _
         | exact VICII.sprite_render_hires_pixel_total _ _ _ _)

theorem VICII.render_sprites_on_scanline_total (m : Machine) :
    (VICII.render_sprites_on_scanline m).total_cycles = m.total_cycles := by
  unfold VICII.render_sprites_on_scanline
  dsimp only
  split
  · rfl
  · rw [foldl_machine_total]
    intro mm idx
    exact VICII.render_one_sprite_total _ _ _

theorem VICII.tick_total (m : Machine) :
    (VICII.tick m).total_cycles = m.total_cycles := by
  unfold VICII.tick
  dsimp only
  (repeat' split) <;>
    simp [VICII.render_pixel_total, VICII.render_sprites_on_scanline_total,
      VICII.trigger_interrupt_total]

theorem CPU.tickInterruptPhase_total (m : Machine) :
    (CPU.tickInterruptPhase m).total_cycles = m.total_cycles := by
  unfold CPU.tickInterruptPhase
  dsimp only
  (repeat' split) <;>
    simp [VICII.tick_total, CPU.handle_irq_total, CPU.handle_nmi_total]

theorem CPU.tickFetchExec_account (codec : PetsciiCodec) (m m' : Machine)
    (h : CPU.tickFetchExec codec m = some m') :
    m'.total_cycles = m.total_cycles + CPU.fetchExecCost m := by
  unfold CPU.tickFetchExec at h
  unfold CPU.fetchExecCost
  dsimp only at h ⊢
  split at h
  case isTrue hc =>
    rw [if_pos hc]
    simp only [Option.some.injEq] at h
    subst h
    simp [Bus.read_total]
  case isFalse hc =>
    rw [if_neg hc]
    split at h
    case h_1 f mode heq =>
      split at h
      case h_1 => exact absurd h (by simp)
      case h_2 m2 heq2 =>
        simp only [Option.some.injEq] at h
        subst h
        have h2 := CPU.execHandler_total codec f mode _ _ heq2
        dsimp only
        rw [h2]
        dsimp only
        split <;>
          simp [CPU.page_boundary_crossed_total, Bus.read_total,
            apply_ite Machine.total_cycles, apply_ite Prod.snd]
    case h_2 heq =>
      simp only [Option.some.injEq] at h
      subst h
      simp [Bus.read_total]

/-- C8 (amended): the cycle-accounting identity the code actually maintains.
Whenever `CPU.tick` completes, `total_cycles` grows by exactly
`CPU.instrCostAccounted`: the dispatched instruction's base cycles plus the
page-crossing penalty, and `0` on countdown ticks, KERNAL-trap ticks and
unknown opcodes.  The taken-branch penalty and the badline-stolen cycles are
*not* part of it — they only flow into `cycles_remaining`. -/
theorem C8_tick_account (codec : PetsciiCodec) (m m' : Machine)
    (h : CPU.tick codec m = some m') :
    m'.total_cycles = m.total_cycles + CPU.instrCostAccounted codec m := by
  unfold CPU.tick at h
  unfold CPU.instrCostAccounted
  rw [← CPU.tickInterruptPhase_total m]
  dsimp only at h ⊢
  split at h
  case isTrue hc5 =>
    rw [if_pos hc5]
    split at h
    case h_1 => exact absurd h (by simp)
    case h_2 m2 heq =>
      simp only [Option.some.injEq] at h
      subst h
      have hk := CPU.handle_kernal_load_total codec _ true m2 heq
      simp [hk]
    case h_3 m2 heq =>
      have hk := CPU.handle_kernal_load_total codec _ false m2 heq
      split at h
      case isTrue hc8 =>
        rw [if_pos hc8]
        split at h
        case h_1 => exact absurd h (by simp)
        case h_2 m3 heq2 =>
          simp only [Option.some.injEq] at h
          subst h
          have hs := CPU.handle_kernal_save_total codec _ true m3 heq2
          simp [hs, hk]
        case h_3 m3 heq2 =>
          have hs := CPU.handle_kernal_save_total codec _ false m3 heq2
          rw [CPU.tickFetchExec_account codec m3 m' h, hs, hk]
      case isFalse hc8 =>
        rw [if_neg hc8]
        rw [CPU.tickFetchExec_account codec m2 m' h, hk]
  case isFalse hc5 =>
    rw [if_neg hc5]
    split at h
    case isTrue hc8 =>
      rw [if_pos hc8]
      split at h
      case h_1 => exact absurd h (by simp)
      case h_2 m3 heq2 =>
        simp only [Option.some.injEq] at h
        subst h
        have hs := CPU.handle_kernal_save_total codec _ true m3 heq2
        simp [hs]
      case h_3 m3 heq2 =>
        have hs := CPU.handle_kernal_save_total codec _ false m3 heq2
        rw [CPU.tickFetchExec_account codec m3 m' h, hs]
    case isFalse hc8 =>
      rw [if_neg hc8]
      exact CPU.tickFetchExec_account codec _ m' h

/-- C8 counterexample: a taken `BEQ` (no page crossing, no badline).  The
code adds only the base 2 cycles to `total_cycles` while the branch penalty
goes to `cycles_remaining` (which ends at 3); the spec's formula
`base + branch_taken_penalty + page_cross + badline` demands 3. -/
theorem C8_counterexample :
    (CPU.tick trivialCodec c8Machine).map
        (fun mm => (mm.total_cycles, mm.cycles_remaining)) = some (2, 3) ∧
      specInstructionCost 2 1 0 0 = 3 ∧ ¬ (2 : Int) = 3 :=
  ⟨by decide, by decide, by decide⟩

/-- C8 amended-claim witness at the concrete taken-branch machine. -/
theorem C8_amended_witness :
    ((CPU.tick trivialCodec c8Machine).getD c8Machine).total_cycles =
      c8Machine.total_cycles + CPU.instrCostAccounted trivialCodec c8Machine :=
  C8_tick_account trivialCodec c8Machine
    ((CPU.tick trivialCodec c8Machine).getD c8Machine) (by rfl)

/-- C9 counterexample: `SBC` in binary mode with `A = $50`, `C = 1` and
operand `$F0` does *not* set V — `0x50 - 0xF0 = -0xA0` wraps to `0x60`,
whose sign agrees with the subtrahend's, so the overflow condition
`(A ^ value) & (A ^ result) & 0x80` is zero. -/
theorem C9_counterexample :
    ¬ (CPU.SBC c9Machine Mode.IMMEDIATE).v = true := by decide

/-- C9 (amended): executing `SBC` in binary mode (D clear) with `A = $50`,
`C = 1` and operand `$F0` leaves V clear, sets `A = $60` and clears carry
(a borrow occurred) — matching real 6502 behaviour; the spec's `V = 1` is
wrong. -/
theorem C9_amended_sbc_overflow_clear :
    (CPU.SBC c9Machine Mode.IMMEDIATE).v = false ∧
    (CPU.SBC c9Machine Mode.IMMEDIATE).a = 0x60 ∧
    (CPU.SBC c9Machine Mode.IMMEDIATE).c = false := by decide

/-- C7: the raster-read registers are swapped relative to the spec.  On
`c7VIC` (raster line `$101`), reading `$D011` returns the *low* eight raster
bits (the spec's `$D012` behaviour) instead of the stored register with bit
8 of the raster in its high bit, and reading `$D012` returns the stored
`$D012` value with `(raster >> 1) & 0x80` merged in instead of raster bits
0–7.  This also contradicts the code's own raster-compare logic, which
treats `$D011` bit 7/`$D012` as the raster latch on the write side. -/
theorem C7_raster_register_reads_swapped :
    (VICII.read c7VIC 0xD011).1 = specVicReadD012 c7VIC ∧
    (VICII.read c7VIC 0xD011).1 ≠ specVicReadD011 c7VIC ∧
    (VICII.read c7VIC 0xD012).1 = 0x85 ∧
    (VICII.read c7VIC 0xD012).1 ≠ specVicReadD012 c7VIC := by decide

/-- C10: servicing an IRQ with `sp = 0` writes *outside* the stack page.
`handle_irq` decrements `sp` without the 8-bit wrap `PHA`/`PHP` use: on
`c10Machine` (`sp = 0`, `pc = $ABCD`) it stores the PC high byte at `$0100`
but the low byte at `$00FF` and the status byte at `$00FE` — both in the
zero page — before `PHP`'s `wrap` finally folds `sp` to 253.  `PHA` from
the same state stays inside the page (`sp` wraps to 255). -/
theorem C10_irq_push_escapes_stack_page :
    ((CPU.handle_irq c10Machine).sp = 253 ∧
     pyGet (CPU.handle_irq c10Machine).ram 65536 0x0100 = 0xAB ∧
     pyGet (CPU.handle_irq c10Machine).ram 65536 0x00FF = 0xCD ∧
     pyGet (CPU.handle_irq c10Machine).ram 65536 0x00FE = 16) ∧
    (CPU.PHA c10Machine Mode.IMPLIED).sp = 255 := by decide

/-- C4: `load_file`'s byte-count rule is inverted.  For a final sector
(`next_track = 0`) with `next_sector = 5`, the claim says only 5 bytes (of
the remaining 254) are data, but the code's
`bytes_in_sector = next_sector if next_track != 0 else 256` appends all 254
remaining bytes. -/
theorem C4_load_file_final_sector_byte_count :
    DiskDrive1541.load_file c4Drive "F" = some (some (List.replicate 254 (7 : Int))) ∧
    (List.replicate 254 (7 : Int)).length = 254 ∧ (254 : Nat) ≠ 5 :=
  ⟨by decide, by decide, by decide⟩

/-- C3: the LOAD trap does read `$B8`/`$BB`/`$BC`, write the file's payload
to its load address (`$AA` lands at `$0801`) and clear C on success, but its
`pc += 2` leaves the CPU at `$FFD7` — *inside* the KERNAL LOAD routine —
rather than at the instruction after the caller's JSR, and the stacked
return address is never popped (`sp` still `$FF`). -/
theorem C3_kernal_load_trap_lands_in_kernal :
    (CPU.tick c3Codec c3Machine).map
        (fun mm => (mm.pc, mm.c, pyGet mm.ram 65536 0x0801, mm.sp)) =
      some (0xFFD7, false, 0xAA, 0xFF) := by decide

theorem Bus.read_low_ram (m : Machine) (a : Int) (hc : m.cartridge = none)
    (ha : a < 0xA000) :
    Bus.read m a = (pyGet m.ram 65536 a, m) := by
  simp only [Bus.read, hc]
  rw [if_neg (by omega), if_neg (by omega), if_neg (by omega)]

/-- C5 counterexample: `JMP ($12FF)` on `c5Machine` resolves to `$5634` —
the high byte comes from `$1300`, the next sequential address — not the
`$7834` the claimed 6502 page-wrap bug (high byte from `$1200`) would
produce. -/
theorem C5_counterexample :
    (CPU.get_location_by_mode c5Machine Mode.INDIRECT).1 = 0x5634 ∧
    (0x5634 : Int) ≠ 0x7834 := ⟨by decide, by decide⟩

/-- C5 (amended): for every indirect `JMP` whose pointer lies at the end of
a page (`$XXFF`), the effective address's low byte is read from `$XXFF` and
its high byte from the *following* address `$XXFF + 1` (the start of the
next page): the 6502 page-wrap bug is **not** replicated — `loc` and
`loc + 1` are read with plain integer arithmetic. -/
theorem C5_amended_jmp_indirect_no_page_wrap (m : Machine)
    (hc : m.cartridge = none)
    (hpc : m.pc + 2 < 0xA000)
    (hff : pyGet m.ram 65536 (m.pc + 1) = 0xFF)
    (hloc : pyGet m.ram 65536 (m.pc + 2) * 256 + pyGet m.ram 65536 (m.pc + 1) + 1 < 0xA000) :
    CPU.get_location_by_mode m Mode.INDIRECT =
      (pyGet m.ram 65536
          (pyGet m.ram 65536 (m.pc + 2) * 256 + pyGet m.ram 65536 (m.pc + 1) + 1) * 256
        + pyGet m.ram 65536 (pyGet m.ram 65536 (m.pc + 2) * 256 + pyGet m.ram 65536 (m.pc + 1)),
       m) := by
  simp only [CPU.get_location_by_mode]
  rw [Bus.read_low_ram m _ hc (by omega)]
  dsimp only
  rw [Bus.read_low_ram m _ hc (by omega)]
  dsimp only
  rw [Bus.read_low_ram m _ hc (by omega)]
  dsimp only
  rw [Bus.read_low_ram m _ hc (by omega)]

/-- C5 amended-claim witness at the concrete page-end pointer machine. -/
theorem C5_amended_witness :
    (CPU.get_location_by_mode c5Machine Mode.INDIRECT).1 = 0x5634 := by
  rw [C5_amended_jmp_indirect_no_page_wrap c5Machine rfl (by decide) (by decide) (by decide)]
  decide

theorem Bus.write_low_ram (m : Machine) (a d : Int) (hc : m.cartridge = none)
    (h1 : a ≠ 1) (ha : a < 0xA000) :
    Bus.write m a d =
      { m with ram := pySet m.ram 65536 a d,
               memory_dirty_flags :=
                 if m.memory_dirty_flags.contains a then m.memory_dirty_flags
                 else a :: m.memory_dirty_flags } := by
  rw [Bus.write.eq_def]
  rw [if_neg h1]
  simp only [hc]
  rw [if_neg (by simp), if_neg (by omega), if_neg (by omega), if_neg (by omega)]

theorem Bus.write_cartridge (m : Machine) (a d : Int) :
    (Bus.write m a d).cartridge = m.cartridge := by
  rw [Bus.write.eq_def]
  by_cases h : a = 1
  · rw [if_pos h]
  · rw [if_neg h]
    dsimp only
    (repeat' split) <;> rfl

theorem Bus.write_sp (m : Machine) (a d : Int) :
    (Bus.write m a d).sp = m.sp := by
  rw [Bus.write.eq_def]
  by_cases h : a = 1
  · rw [if_pos h]
  · rw [if_neg h]
    dsimp only
    (repeat' split) <;> rfl

theorem CPU.handle_irq_pushes (m : Machine) (hc : m.cartridge = none)
    (hsp : 2 ≤ m.sp ∧ m.sp ≤ 255) :
    pyGet (CPU.handle_irq m).ram 65536 (0x0100 + m.sp) = pyAnd (pyShr m.pc 8) 0xFF ∧
    pyGet (CPU.handle_irq m).ram 65536 (0x0100 + m.sp - 1) = pyAnd m.pc 0xFF := by
  unfold CPU.handle_irq CPU.PHP
  dsimp only
  rw [Bus.write_low_ram m _ _ hc (by omega) (by omega)]
  dsimp only
  rw [Bus.write_low_ram _ _ _ (by simp [Bus.write_cartridge, hc])
    (by first | omega | (simp [Bus.write_sp]; omega))
    (by first | omega | (simp [Bus.write_sp]; omega))]
  dsimp only
  rw [Bus.write_low_ram _ _ _ (by simp [Bus.write_cartridge, hc])
    (by first | omega | (simp [Bus.write_sp]; omega))
    (by first | omega | (simp [Bus.write_sp]; omega))]
  dsimp only
  rw [Bus.read_ram, Bus.read_ram]
  dsimp only
  constructor <;>
    simp (disch := omega) only [pyGet, pySet, pyIdx, if_pos, if_neg, if_true, if_false]

/-- C6 counterexample: executing BRK at `pc = $2000` pushes `$20`/`$01` —
the address `P + 1`, not the claimed `P + 2`: `BRK` advances `pc` by one
byte only before `handle_irq` pushes it. -/
theorem C6_counterexample :
    (CPU.BRK trivialCodec c6Machine Mode.IMPLIED).map
        (fun mm => (pyGet mm.ram 65536 0x01FF, pyGet mm.ram 65536 0x01FE)) =
      some (0x20, 0x01) ∧
    (0x01 : Int) ≠ 0x02 := ⟨by decide, by decide⟩

set_option maxHeartbeats 2000000 in
/-- C6 (amended): for every CPU state with BRK at `pc = P` (with `P + 1`
not triggering the KERNAL trap, no cartridge and `sp` in `[2, 255]`),
executing BRK pushes the address `P + 1` — high byte then low byte — onto
the stack before the status byte: the operand byte is *not* skipped.
(Within this emulator that convention is self-consistent: `RTI` resumes at
the pushed address plus the `RELATIVE` increment applied after `BRK`.) -/
theorem C6_amended_brk_pushes_pc_plus_one (codec : PetsciiCodec) (m : Machine) (mode : Mode)
    (htrap : m.pc + 1 ≠ 0xFFD5) (hc : m.cartridge = none)
    (hsp : 2 ≤ m.sp ∧ m.sp ≤ 255) :
    ∃ m', CPU.BRK codec m mode = some m' ∧
      pyGet m'.ram 65536 (0x0100 + m.sp) = pyAnd (pyShr (m.pc + 1) 8) 0xFF ∧
      pyGet m'.ram 65536 (0x0100 + m.sp - 1) = pyAnd (m.pc + 1) 0xFF := by
  unfold CPU.BRK
  rw [if_neg htrap]
  have hp := CPU.handle_irq_pushes { m with pc := m.pc + 1, i := true } hc hsp
  exact ⟨_, rfl, hp.1, hp.2⟩

/-- C6 amended-claim witness at the concrete `pc = $2000` machine. -/
theorem C6_amended_witness :
    ∃ m', CPU.BRK trivialCodec c6Machine Mode.IMPLIED = some m' ∧
      pyGet m'.ram 65536 (0x0100 + c6Machine.sp) = pyAnd (pyShr (c6Machine.pc + 1) 8) 0xFF ∧
      pyGet m'.ram 65536 (0x0100 + c6Machine.sp - 1) = pyAnd (c6Machine.pc + 1) 0xFF :=
  C6_amended_brk_pushes_pc_plus_one trivialCodec c6Machine Mode.IMPLIED (by decide) rfl
    (by decide)
